import Mathlib

/-!
Verification development for the EV3 tacho-motor driver
(`src/motors/ev3_tacho_motor.c`).

The driver is shallowly embedded: the per-motor data record
`ev3_tacho_motor_data` becomes the structure `MotorState`, every C
function the claims touch becomes a Lean function on `MotorState`, and
the hrtimer callback's `while (reprocess)` loop becomes a fueled loop
together with a proof that the fuel suffices.  C `int`/`long` fields are
modelled as `Int` (signed overflow is undefined behaviour in C, so the
unbounded model is the defined-behaviour semantics); the 32-bit
free-running hardware timer values (`unsigned long` on the 32-bit
target) are modelled as `Nat` reduced mod 2^32, with the wrap-around
subtraction made explicit.  C integer division on `Int` is modelled with
`Int.tdiv` (truncation toward zero, the C99 rule).

External collaborators (the dc-motor port operations `set_direction`,
`set_command`, `set_duty_cycle`, and the workqueue notification) do not
change the motor record; they are modelled by the ghost counter
`out_calls`, which is incremented once per physical-driver call so that
"no driver call is made" is expressible.  The kernel's
`get_random_bytes` loop in `ev3_tacho_motor_set_estop` is modelled by a
`fresh` parameter; the loop's guarantee that the generated token is
non-zero becomes the hypothesis `fresh ≠ 0`.
-/

namespace EV3

/-- `enum ev3_tacho_motor_command` (UNKNOWN, FORWARD, REVERSE, BRAKE, COAST);
used for `run_direction`. -/
inductive Direction where
  | UNKNOWN
  | FORWARD
  | REVERSE
  | BRAKE
  | COAST
deriving DecidableEq

/-- The `TM_STATE_*` constants of the tacho-motor class that the driver uses. -/
inductive TMState where
  | RUN_FOREVER
  | SETUP_RAMP_TIME
  | SETUP_RAMP_POSITION
  | SETUP_RAMP_REGULATION
  | RAMP_UP
  | RAMP_CONST
  | POSITION_RAMP_DOWN
  | RAMP_DOWN
  | STOP
  | IDLE
deriving DecidableEq

/-- `TM_RUN_*` run-mode selectors used by the driver. -/
inductive RunMode where
  | FOREVER
  | TIME
  | POSITION
deriving DecidableEq

/-- `TM_REGULATION_OFF` / `TM_REGULATION_ON`. -/
inductive Regulation where
  | OFF
  | ON
deriving DecidableEq

/-- `TM_STOP_COAST` / `TM_STOP_BRAKE` / `TM_STOP_HOLD`. -/
inductive StopMode where
  | COAST
  | BRAKE
  | HOLD
deriving DecidableEq

/-- `TM_POSITION_ABSOLUTE` / `TM_POSITION_RELATIVE`. -/
inductive PositionMode where
  | ABSOLUTE
  | RELATIVE
deriving DecidableEq

/-- `enum dc_motor_polarity`: DC_MOTOR_POLARITY_NORMAL / _INVERSED. -/
inductive Polarity where
  | NORMAL
  | INVERSED
deriving DecidableEq

/-- The anonymous `ramp` struct: `up`/`down` windows `{start, end, full}`
(flattened here as `up_start` … `down_full` because `end` is a Lean
keyword), progress `percent`, signed `direction`, `position_sp` snapshot
and the elapsed-time counter `count`. -/
structure Ramp where
  up_start : Int
  up_end : Int
  up_full : Int
  down_start : Int
  down_end : Int
  down_full : Int
  percent : Int
  direction : Int
  position_sp : Int
  count : Int

/-- The anonymous `pid` struct. -/
structure Pid where
  P : Int
  I : Int
  D : Int
  speed_regulation_P : Int
  speed_regulation_I : Int
  speed_regulation_D : Int
  speed_regulation_K : Int
  prev_pulses_per_second : Int
  prev_position_error : Int

/-- `struct ev3_tacho_motor_data`.  The two informational mutex booleans
(`class_mutex`, `irq_mutex`) are omitted: the ISR sets and clears
`irq_mutex` within one invocation and nothing reads it.  `motor_type` is
the C `int` index into the per-model constant tables (7 = TACHO,
8 = MINITACHO).  `out_calls` is the ghost physical-driver call counter
described in the file header. -/
structure MotorState where
  tacho_samples : Nat → Nat
  tacho_samples_head : Nat
  got_new_sample : Bool
  samples_per_speed : Int
  dir_chg_samples : Int
  counts_per_pulse : Int
  pulses_per_second : Int
  ramp : Ramp
  pid : Pid
  speed_reg_sp : Int
  run_direction : Direction
  run : Int
  estop : Int
  motor_type : Nat
  tacho : Int
  irq_tacho : Int
  speed : Int
  power : Int
  state : TMState
  duty_cycle_sp : Int
  pulses_per_second_sp : Int
  time_sp : Int
  position_sp : Int
  ramp_up_sp : Int
  ramp_down_sp : Int
  run_mode : RunMode
  regulation_mode : Regulation
  stop_mode : StopMode
  position_mode : PositionMode
  polarity_mode : Polarity
  encoder_mode : Polarity
  out_calls : Nat

/-- `TACHO_SAMPLES` — capacity of the timestamp ring. -/
def TACHO_SAMPLES : Nat := 128

/-- `MAX_POWER`. -/
def MAX_POWER : Int := 100

/-- The `SamplesPerSpeed` table, presented as a function of the motor-type
index and the speed-band column (0 = below 40, 1 = above 40, 2 = above 60,
3 = above 80).  Types 7 (TACHO) and 8 (MINITACHO) have the non-trivial
rows; every other row is `{2, 2, 2, 2}`. -/
def SamplesPerSpeed (motorType : Nat) (band : Nat) : Int :=
  if motorType = 7 then
    if band = 0 then 4 else if band = 1 then 16 else if band = 2 then 32 else 64
  else if motorType = 8 then
    if band = 0 then 2 else if band = 1 then 4 else if band = 2 then 8 else 16
  else 2

/-- The `CountsPerPulse` table. -/
def CountsPerPulse (motorType : Nat) : Int :=
  if motorType = 7 then 3300000 else if motorType = 8 then 2062500 else 1

/-- The `MaxPulsesPerSec` table. -/
def MaxPulsesPerSec (motorType : Nat) : Int :=
  if motorType = 7 then 900 else if motorType = 8 then 1200 else 1

/-- `set_samples_per_speed`. -/
def set_samples_per_speed (s : MotorState) (speed : Int) : MotorState :=
  if speed > 80 then
    { s with samples_per_speed := SamplesPerSpeed s.motor_type 3 }
  else if speed > 60 then
    { s with samples_per_speed := SamplesPerSpeed s.motor_type 2 }
  else if speed > 40 then
    { s with samples_per_speed := SamplesPerSpeed s.motor_type 1 }
  else
    { s with samples_per_speed := SamplesPerSpeed s.motor_type 0 }

/-- Pointwise update of the timestamp ring, i.e. `tacho_samples[i] = v`. -/
def ringWrite (f : Nat → Nat) (i : Nat) (v : Nat) : Nat → Nat :=
  fun j => if j = i then v else f j

/-- 32-bit wrap-around subtraction `a - b` on the `unsigned long`
free-running timer values. -/
def usub32 (a b : Nat) : Nat :=
  (a % 2 ^ 32 + (2 ^ 32 - b % 2 ^ 32)) % 2 ^ 32

/-- The direction-resolution nested conditionals of `tacho_motor_isr`
(lines 379–391): `int_state`/`dir_state` are the already-sampled levels
(`dir_state` is the *negated* direction-gpio level, as in the C), and the
polarity/encoder modes select whether level equality means FORWARD or
REVERSE. -/
def decodeDirection (polarity encoder : Polarity) (int_state dir_state : Bool) :
    Direction :=
  if polarity = Polarity.NORMAL then
    if encoder = Polarity.NORMAL then
      if int_state = dir_state then Direction.FORWARD else Direction.REVERSE
    else
      if int_state = dir_state then Direction.REVERSE else Direction.FORWARD
  else
    if encoder = Polarity.NORMAL then
      if int_state = dir_state then Direction.REVERSE else Direction.FORWARD
    else
      if int_state = dir_state then Direction.FORWARD else Direction.REVERSE

/-- The tail of `tacho_motor_isr` (lines 431–447): commit the resolved
direction, store the timestamp in `next_sample`, advance the head there,
bump `irq_tacho` by the committed direction and raise `got_new_sample`. -/
def isrFinish (s : MotorState) (next_sample : Nat) (timer : Nat)
    (next_direction : Direction) : MotorState :=
  let s := { s with run_direction := next_direction }
  let s := { s with
    tacho_samples := ringWrite s.tacho_samples next_sample timer,
    tacho_samples_head := next_sample }
  let s :=
    if s.run_direction = Direction.FORWARD then
      { s with irq_tacho := s.irq_tacho + 1 }
    else
      { s with irq_tacho := s.irq_tacho - 1 }
  { s with got_new_sample := true }

/-- `tacho_motor_isr`.  `int_gpio` and `dir_gpio` are the raw levels read
from the two pins; the C negates the direction pin when sampling it.
`timer` is the raw `legoev3_hires_timer_read()` value (reduced mod 2^32,
as the 32-bit `unsigned long` capture does). -/
def tacho_motor_isr (int_gpio dir_gpio : Bool) (timer : Nat) (s : MotorState) :
    MotorState :=
  let int_state : Bool := int_gpio
  let dir_state : Bool := ! dir_gpio
  let t : Nat := timer % 2 ^ 32
  let prev_timer : Nat := s.tacho_samples s.tacho_samples_head
  let next_sample : Nat := (s.tacho_samples_head + 1) % TACHO_SAMPLES
  if 35 < s.speed ∨ s.speed < -35 then
    let s :=
      if s.dir_chg_samples < (TACHO_SAMPLES : Int) - 1 then
        { s with dir_chg_samples := s.dir_chg_samples + 1 }
      else s
    isrFinish s next_sample t s.run_direction
  else
    let next_direction :=
      decodeDirection s.polarity_mode s.encoder_mode int_state dir_state
    if usub32 t prev_timer < 400 * 33 then
      let s := { s with
        tacho_samples := ringWrite s.tacho_samples s.tacho_samples_head t }
      let s :=
        if s.run_direction = Direction.FORWARD then
          { s with irq_tacho := s.irq_tacho - 1 }
        else
          { s with irq_tacho := s.irq_tacho + 1 }
      isrFinish s s.tacho_samples_head t next_direction
    else
      let s :=
        if s.run_direction = next_direction then
          if s.dir_chg_samples < (TACHO_SAMPLES : Int) - 1 then
            { s with dir_chg_samples := s.dir_chg_samples + 1 }
          else s
        else
          { s with dir_chg_samples := 0 }
      isrFinish s next_sample t next_direction

/-- `ev3_tacho_motor_update_output`.  The dc-motor port operations act on
the physical driver only; each call site bumps the ghost `out_calls`
counter.  The open-loop minimum-power clamp (±10) is applied exactly as
in the C. -/
def ev3_tacho_motor_update_output (s : MotorState) : MotorState :=
  let s :=
    if s.power > 0 then
      let s := { s with out_calls := s.out_calls + 2 }
      if s.regulation_mode = Regulation.OFF ∧ s.power < 10 then
        { s with power := 10 }
      else s
    else if s.power < 0 then
      let s := { s with out_calls := s.out_calls + 2 }
      if s.regulation_mode = Regulation.OFF ∧ s.power > -10 then
        { s with power := -10 }
      else s
    else
      { s with out_calls := s.out_calls + 1 }
  { s with out_calls := s.out_calls + 1 }

/-- The clamp of `ev3_tacho_motor_set_power`: restrict a requested power
to `[-MAX_POWER, MAX_POWER]`. -/
def clampPower (power : Int) : Int :=
  if power > MAX_POWER then MAX_POWER
  else if power < -MAX_POWER then -MAX_POWER
  else power

/-- `ev3_tacho_motor_set_power`: no-op when the request equals the stored
power, otherwise clamp to `[-MAX_POWER, MAX_POWER]`, store, and update the
output. -/
def ev3_tacho_motor_set_power (s : MotorState) (power : Int) : MotorState :=
  if s.power = power then s
  else ev3_tacho_motor_update_output { s with power := clampPower power }

/-- `calculate_ramp_progress`. -/
def calculate_ramp_progress (numerator denominator : Int) : Int :=
  if denominator ≤ numerator + 2 then 100
  else if denominator = 0 then 100
  else (numerator * 100).tdiv denominator

/-- `calculate_speed`.  `now` is the current `legoev3_hires_timer_read()`
value.  The C function also returns a "speed updated" boolean, but its
only caller assigns it to a variable it never reads, so the model keeps
just the state effect.  The mixed `int`/`unsigned` C arithmetic is
unsigned (both divisions and both wrap-around differences), hence the
`Nat` computations. -/
def calculate_speed (now : Nat) (s : MotorState) : MotorState :=
  let DiffIdx := s.tacho_samples_head
  let s :=
    if 1 ≤ s.dir_chg_samples then
      let Diff := usub32 (s.tacho_samples DiffIdx)
        (s.tacho_samples ((DiffIdx + TACHO_SAMPLES - 1) % TACHO_SAMPLES))
      let Diff := Diff ||| 1
      set_samples_per_speed s (Int.ofNat (s.counts_per_pulse.toNat / Diff))
    else s
  if s.got_new_sample ∧ s.samples_per_speed ≤ s.dir_chg_samples then
    let Diff := usub32 (s.tacho_samples DiffIdx)
      (s.tacho_samples
        ((DiffIdx + TACHO_SAMPLES - s.samples_per_speed.toNat) % TACHO_SAMPLES))
    let Diff := Diff ||| 1
    let pps : Int := Int.ofNat (33000000 * s.samples_per_speed.toNat / Diff)
    let pps := if s.run_direction = Direction.REVERSE then -pps else pps
    { s with pulses_per_second := pps, got_new_sample := false }
  else if s.counts_per_pulse.toNat < usub32 now (s.tacho_samples DiffIdx) then
    { s with dir_chg_samples := 0, pulses_per_second := 0 }
  else s

/-- The speed-setpoint clamp at the top of `regulate_speed`. -/
def clampedSpeedRegSp (s : MotorState) : Int :=
  if s.speed_reg_sp > MaxPulsesPerSec s.motor_type then MaxPulsesPerSec s.motor_type
  else if s.speed_reg_sp < -MaxPulsesPerSec s.motor_type then -MaxPulsesPerSec s.motor_type
  else s.speed_reg_sp

/-- The speed error of one `regulate_speed` invocation. -/
def speedError (s : MotorState) : Int :=
  clampedSpeedRegSp s - s.pulses_per_second

/-- The power value `regulate_speed` computes on state `s`, before the
±100 clamp of `ev3_tacho_motor_set_power`: `(P·Kp + I·Ki + D·Kd) / Kf`
with the just-added error already in `I`. -/
def computedPower (s : MotorState) : Int :=
  let e := speedError s
  (e * s.pid.speed_regulation_P + (s.pid.I + e) * s.pid.speed_regulation_I
    + (s.pulses_per_second - s.pid.prev_pulses_per_second) * s.pid.speed_regulation_D).tdiv
    s.pid.speed_regulation_K

/-- `regulate_speed`. -/
def regulate_speed (s : MotorState) : MotorState :=
  let sp := clampedSpeedRegSp s
  let s := { s with speed_reg_sp := sp }
  let e := sp - s.pulses_per_second
  let s := { s with
    pid.P := e,
    pid.I := s.pid.I + e,
    pid.D := s.pulses_per_second - s.pid.prev_pulses_per_second }
  let s := { s with pid.prev_pulses_per_second := s.pulses_per_second }
  let power := (s.pid.P * s.pid.speed_regulation_P
    + s.pid.I * s.pid.speed_regulation_I
    + s.pid.D * s.pid.speed_regulation_D).tdiv s.pid.speed_regulation_K
  let s := if 100 < |power| then { s with pid.I := s.pid.I - e } else s
  if sp = 0 then ev3_tacho_motor_set_power s 0
  else ev3_tacho_motor_set_power s power

/-- `update_motor_speed_or_power`. -/
def update_motor_speed_or_power (s : MotorState) (percent : Int) : MotorState :=
  if s.regulation_mode = Regulation.OFF then
    if s.run_mode = RunMode.POSITION then
      ev3_tacho_motor_set_power s
        (s.ramp.direction * |(s.duty_cycle_sp * percent).tdiv 100|)
    else
      ev3_tacho_motor_set_power s ((s.duty_cycle_sp * percent).tdiv 100)
  else
    if s.run_mode = RunMode.POSITION then
      { s with speed_reg_sp :=
          s.ramp.direction * |(s.pulses_per_second_sp * percent).tdiv 100| }
    else
      { s with speed_reg_sp := (s.pulses_per_second_sp * percent).tdiv 100 }

/-- `regulate_position`.  The MINITACHO and TACHO branches of the source
have identical bodies; any other motor type leaves P/I/D untouched. -/
def regulate_position (s : MotorState) : MotorState :=
  let position_error := 0 - s.irq_tacho
  let s :=
    if s.motor_type = 8 ∨ s.motor_type = 7 then
      { s with
        pid.P := position_error * 400,
        pid.I := (s.pid.I * 99).tdiv 100 + position_error.tdiv 1,
        pid.D := ((position_error - s.pid.prev_position_error) * 4).tdiv 2 * 2 }
    else s
  let s := { s with pid.prev_position_error := position_error }
  let power := (s.pid.P + s.pid.I + s.pid.D).tdiv 100
  ev3_tacho_motor_set_power s power

/-- `adjust_ramp_for_position`. -/
def adjust_ramp_for_position (s : MotorState) : MotorState :=
  let ramp_down_time : Int :=
    if s.regulation_mode = Regulation.OFF then
      |(s.ramp_down_sp * s.power).tdiv 100|
    else
      |(s.ramp_down_sp * s.pulses_per_second).tdiv (MaxPulsesPerSec s.motor_type)|
  let ramp_down_distance : Int :=
    |(s.pulses_per_second * ramp_down_time * 7).tdiv (2000 * 10)|
  if s.ramp.direction > 0 then
    if s.ramp.position_sp - ramp_down_distance ≤ s.tacho + s.irq_tacho then
      { s with
        ramp.up_end := s.ramp.count,
        ramp.down_end := s.ramp.count + ramp_down_time,
        ramp.down_start := s.ramp.count + ramp_down_time - s.ramp_down_sp }
    else s
  else
    if s.ramp.position_sp + ramp_down_distance ≥ s.tacho + s.irq_tacho then
      { s with
        ramp.up_end := s.ramp.count,
        ramp.down_end := s.ramp.count + ramp_down_time,
        ramp.down_start := s.ramp.count + ramp_down_time - s.ramp_down_sp }
    else s

/-- The `TM_STATE_SETUP_RAMP_TIME` case of the timer callback.  The
`TM_STATE_RUN_FOREVER` case falls through into it in the C switch. -/
def setupRampTimeBody (s : MotorState) : MotorState × Bool :=
  let s := { s with ramp.up_start := 0, ramp.down_end := s.time_sp }
  let s :=
    if s.run_mode = RunMode.FOREVER then
      { s with ramp.down_end := 60 * 60 * 1000 }
    else s
  let s :=
    if s.regulation_mode = Regulation.OFF then
      { s with
        ramp.up_full := (|s.duty_cycle_sp| * s.ramp_up_sp).tdiv 100,
        ramp.down_full := (|s.duty_cycle_sp| * s.ramp_down_sp).tdiv 100,
        ramp.direction := if s.duty_cycle_sp ≥ 0 then 1 else -1 }
    else
      { s with
        ramp.up_full :=
          (|s.pulses_per_second_sp| * s.ramp_up_sp).tdiv (MaxPulsesPerSec s.motor_type),
        ramp.down_full :=
          (|s.pulses_per_second_sp| * s.ramp_down_sp).tdiv (MaxPulsesPerSec s.motor_type),
        ramp.direction := if s.pulses_per_second_sp ≥ 0 then 1 else -1 }
  let s := { s with
    ramp.up_end := s.ramp.up_start + s.ramp.up_full,
    ramp.down_start := s.ramp.down_end - s.ramp.down_full }
  let s :=
    if s.ramp.up_end > s.ramp.down_start then
      let e := (s.time_sp * s.ramp_up_sp).tdiv (s.ramp_up_sp + s.ramp_down_sp)
      { s with ramp.up_end := e, ramp.down_start := e }
    else s
  ({ s with state := TMState.SETUP_RAMP_REGULATION }, true)

/-- The `TM_STATE_SETUP_RAMP_POSITION` case of the timer callback. -/
def setupRampPositionBody (s : MotorState) : MotorState × Bool :=
  let s :=
    if s.position_mode = PositionMode.ABSOLUTE then
      { s with ramp.position_sp := s.position_sp }
    else
      { s with ramp.position_sp := s.ramp.position_sp + s.position_sp }
  let s := { s with
    ramp.direction :=
      if s.ramp.position_sp ≥ s.tacho + s.irq_tacho then 1 else -1 }
  let s := { s with ramp.up_start := 0 }
  let s :=
    if s.regulation_mode = Regulation.OFF then
      { s with
        ramp.up_full := (|s.duty_cycle_sp| * s.ramp_up_sp).tdiv 100,
        ramp.down_full := (|s.duty_cycle_sp| * s.ramp_down_sp).tdiv 100 }
    else
      { s with
        ramp.up_full :=
          (|s.pulses_per_second_sp| * s.ramp_up_sp).tdiv (MaxPulsesPerSec s.motor_type),
        ramp.down_full :=
          (|s.pulses_per_second_sp| * s.ramp_down_sp).tdiv (MaxPulsesPerSec s.motor_type) }
  let s := { s with ramp.up_end := s.ramp.up_start + s.ramp.up_full }
  let s := { s with ramp.down_end := 60 * 60 * 1000, ramp.down_start := 60 * 60 * 1000 }
  ({ s with state := TMState.SETUP_RAMP_REGULATION }, true)

/-- The `TM_STATE_RAMP_UP` case of the timer callback. -/
def rampUpBody (s : MotorState) : MotorState × Bool :=
  let s := if s.run_mode = RunMode.POSITION then adjust_ramp_for_position s else s
  let sr :=
    if s.ramp.count ≥ s.ramp.up_end then
      ({ s with state := TMState.RAMP_CONST }, true)
    else (s, false)
  let s := sr.1
  let s := { s with
    ramp.percent := calculate_ramp_progress s.ramp.count s.ramp.up_full }
  (update_motor_speed_or_power s s.ramp.percent, sr.2)

/-- The `TM_STATE_RAMP_CONST` case of the timer callback. -/
def rampConstBody (s : MotorState) : MotorState × Bool :=
  let sr :=
    if s.run_mode = RunMode.FOREVER then
      ({ s with
        ramp.down_start := s.ramp.count,
        ramp.down_end :=
          s.ramp.count + (|s.duty_cycle_sp| * s.ramp_down_sp).tdiv 100 }, false)
    else if s.run_mode = RunMode.TIME then
      if s.ramp.count ≥ s.ramp.down_start then
        ({ s with state := TMState.RAMP_DOWN }, true)
      else (s, false)
    else
      let s := adjust_ramp_for_position s
      if s.ramp.count ≥ s.ramp.down_start then
        ({ s with state := TMState.POSITION_RAMP_DOWN }, true)
      else (s, false)
  let s := sr.1
  (update_motor_speed_or_power s s.ramp.percent, sr.2)

/-- The down-window adjustment at the head of the
`TM_STATE_POSITION_RAMP_DOWN` case (before the intentional fallthrough
into `TM_STATE_RAMP_DOWN`). -/
def positionRampDownAdjust (s : MotorState) : MotorState :=
  let s :=
    if s.ramp.direction > 0 then
      if s.ramp.position_sp ≤ s.tacho + s.irq_tacho then
        { s with ramp.down_end := s.ramp.count }
      else if s.ramp.down_end ≤ s.ramp.count then
        { s with ramp.down_end := s.ramp.count + 100 }
      else s
    else
      if s.ramp.position_sp ≥ s.tacho + s.irq_tacho then
        { s with ramp.down_end := s.ramp.count }
      else if s.ramp.down_end ≤ s.ramp.count then
        { s with ramp.down_end := s.ramp.count + 100 }
      else s
  { s with ramp.down_start := s.ramp.down_end - s.ramp_down_sp }

/-- The `TM_STATE_RAMP_DOWN` case of the timer callback (also the tail of
`TM_STATE_POSITION_RAMP_DOWN` via fallthrough). -/
def rampDownBody (s : MotorState) : MotorState × Bool :=
  let sr :=
    if s.ramp.count ≥ s.ramp.down_end then
      ({ s with state := TMState.STOP }, true)
    else (s, false)
  let s := sr.1
  let s := { s with
    ramp.percent :=
      calculate_ramp_progress (s.ramp.down_end - s.ramp.count) s.ramp.down_full }
  (update_motor_speed_or_power s s.ramp.percent, sr.2)

/-- The `TM_STATE_STOP` case of the timer callback. -/
def stopBody (s : MotorState) : MotorState × Bool :=
  let s :=
    if s.run_mode = RunMode.POSITION then
      { s with
        irq_tacho := s.tacho + s.irq_tacho - s.ramp.position_sp,
        tacho := s.ramp.position_sp }
    else
      { s with tacho := s.tacho + s.irq_tacho, irq_tacho := 0 }
  let s := { s with speed_reg_sp := 0 }
  let s := ev3_tacho_motor_set_power s 0
  let s := { s with pid.P := 0, pid.I := 0, pid.D := 0 }
  ({ s with state := TMState.IDLE }, true)

/-- One pass of the `switch (ev3_tm->state)` inside the timer callback's
reprocessing loop.  Returns the updated state and the `reprocess` flag.
The C fallthroughs are reproduced: `RUN_FOREVER` executes the
`SETUP_RAMP_TIME` body, and `POSITION_RAMP_DOWN` runs its adjustment and
then the `RAMP_DOWN` body. -/
def stateStep (s : MotorState) : MotorState × Bool :=
  match s.state with
  | TMState.RUN_FOREVER => setupRampTimeBody s
  | TMState.SETUP_RAMP_TIME => setupRampTimeBody s
  | TMState.SETUP_RAMP_POSITION => setupRampPositionBody s
  | TMState.SETUP_RAMP_REGULATION =>
      ({ s with ramp.count := 0, state := TMState.RAMP_UP }, true)
  | TMState.RAMP_UP => rampUpBody s
  | TMState.RAMP_CONST => rampConstBody s
  | TMState.POSITION_RAMP_DOWN => rampDownBody (positionRampDownAdjust s)
  | TMState.RAMP_DOWN => rampDownBody s
  | TMState.STOP => stopBody s
  | TMState.IDLE => ({ s with run := 0 }, false)

/-- The `while (reprocess)` loop, with explicit fuel.  `loopFuelSuffices`
below shows that fuel 9 reaches the loop's exit for every state, so
`runLoop 9` is the exact meaning of the unbounded C loop. -/
def runLoop : Nat → MotorState → MotorState
  | 0, s => s
  | fuel + 1, s =>
    let sr := stateStep s
    if sr.2 then runLoop fuel sr.1 else sr.1

/-- Whether a state is one of the four actively-ramping states in which
the timer callback advances `ramp.count`. -/
def isRampingState (st : TMState) : Bool :=
  match st with
  | TMState.RAMP_UP => true
  | TMState.RAMP_CONST => true
  | TMState.POSITION_RAMP_DOWN => true
  | TMState.RAMP_DOWN => true
  | _ => false

/-- The trailing section of the timer callback (label `no_run`): when the
motor is not running, re-issue the stop command for the current stop mode
(COAST/BRAKE are pure driver commands; HOLD runs the position
regulator). -/
def tickTrailing (s : MotorState) : MotorState :=
  if s.run ≠ 0 then s
  else
    match s.stop_mode with
    | StopMode.COAST => { s with out_calls := s.out_calls + 1 }
    | StopMode.BRAKE => { s with out_calls := s.out_calls + 1 }
    | StopMode.HOLD => regulate_position s

/-- The pre-loop `switch` of the timer callback that advances the ramp
elapsed-time counter by the 2 ms tick period in the four actively-ramping
states. -/
def advanceRampCount (s : MotorState) : MotorState :=
  if isRampingState s.state then { s with ramp.count := s.ramp.count + 2 }
  else s

/-- The post-loop regulation call of the timer callback: run the speed
regulator when still running with regulation on. -/
def postRegulate (s : MotorState) : MotorState :=
  if s.run ≠ 0 ∧ s.regulation_mode = Regulation.ON then regulate_speed s
  else s

/-- `ev3_tacho_motor_timer_callback`: one 2 ms timer tick.  `now` is the
hires-timer value sampled by `calculate_speed` during this tick. -/
def ev3_tacho_motor_timer_callback (now : Nat) (s : MotorState) : MotorState :=
  let s := calculate_speed now s
  if s.run = 0 then tickTrailing s
  else tickTrailing (postRegulate (runLoop 9 (advanceRampCount s)))

/-- `ev3_tacho_motor_get_position`: `tacho + irq_tacho`. -/
def ev3_tacho_motor_get_position (s : MotorState) : Int :=
  s.tacho + s.irq_tacho

/-- `ev3_tacho_motor_set_position`. -/
def ev3_tacho_motor_set_position (s : MotorState) (position : Int) : MotorState :=
  { s with irq_tacho := 0, tacho := position, ramp.position_sp := position }

/-- `ev3_tacho_motor_get_run`. -/
def ev3_tacho_motor_get_run (s : MotorState) : Int :=
  s.run

/-- `ev3_tacho_motor_set_run`. -/
def ev3_tacho_motor_set_run (s : MotorState) (run : Int) : MotorState :=
  let s :=
    if s.estop ≠ 0 then { s with state := TMState.STOP }
    else if run = 0 ∧ s.state ≠ TMState.IDLE then
      let s := { s with
        ramp.down_start := s.ramp.count,
        ramp.down_end := s.ramp_down_sp }
      if s.run_mode = RunMode.FOREVER then { s with state := TMState.RAMP_DOWN }
      else if s.run_mode = RunMode.TIME then { s with state := TMState.RAMP_DOWN }
      else { s with state := TMState.STOP }
    else if run ≠ 0 ∧ s.state = TMState.IDLE then
      if s.run_mode = RunMode.FOREVER then { s with state := TMState.RUN_FOREVER }
      else if s.run_mode = RunMode.TIME then { s with state := TMState.SETUP_RAMP_TIME }
      else { s with state := TMState.SETUP_RAMP_POSITION }
    else if run = 0 then { s with state := TMState.STOP }
    else s
  { s with run := 1 }

/-- `ev3_tacho_motor_get_estop`. -/
def ev3_tacho_motor_get_estop (s : MotorState) : Int :=
  s.estop

/-- `ev3_tacho_motor_set_estop`.  `fresh` models the outcome of the
`get_random_bytes` re-roll loop; that loop exits only with a non-zero
token, which the theorems record as the hypothesis `fresh ≠ 0`. -/
def ev3_tacho_motor_set_estop (fresh : Int) (s : MotorState) (estop : Int) :
    MotorState :=
  if s.estop = 0 then
    { s with stop_mode := StopMode.COAST, state := TMState.STOP, estop := fresh }
  else if estop = s.estop then { s with estop := 0 }
  else s

/-- `ev3_tacho_motor_set_duty_cycle_sp`. -/
def ev3_tacho_motor_set_duty_cycle_sp (s : MotorState) (duty_cycle_sp : Int) :
    MotorState :=
  { s with duty_cycle_sp := duty_cycle_sp }

/-- `ev3_tacho_motor_set_ramp_up_sp`. -/
def ev3_tacho_motor_set_ramp_up_sp (s : MotorState) (ramp_up_sp : Int) :
    MotorState :=
  { s with ramp_up_sp := ramp_up_sp }

/-- The all-zero record produced by `kzalloc` in the probe function (the
enum-valued selectors are given the values `ev3_tacho_motor_reset`
installs anyway; `ev3_tacho_motor_reset` overwrites every other field it
touches). -/
def zeroState : MotorState where
  tacho_samples := fun _ => 0
  tacho_samples_head := 0
  got_new_sample := false
  samples_per_speed := 0
  dir_chg_samples := 0
  counts_per_pulse := 0
  pulses_per_second := 0
  ramp :=
    { up_start := 0, up_end := 0, up_full := 0, down_start := 0, down_end := 0,
      down_full := 0, percent := 0, direction := 0, position_sp := 0, count := 0 }
  pid :=
    { P := 0, I := 0, D := 0, speed_regulation_P := 0, speed_regulation_I := 0,
      speed_regulation_D := 0, speed_regulation_K := 0,
      prev_pulses_per_second := 0, prev_position_error := 0 }
  speed_reg_sp := 0
  run_direction := Direction.UNKNOWN
  run := 0
  estop := 0
  motor_type := 0
  tacho := 0
  irq_tacho := 0
  speed := 0
  power := 0
  state := TMState.IDLE
  duty_cycle_sp := 0
  pulses_per_second_sp := 0
  time_sp := 0
  position_sp := 0
  ramp_up_sp := 0
  ramp_down_sp := 0
  run_mode := RunMode.FOREVER
  regulation_mode := Regulation.OFF
  stop_mode := StopMode.COAST
  position_mode := PositionMode.ABSOLUTE
  polarity_mode := Polarity.NORMAL
  encoder_mode := Polarity.NORMAL
  out_calls := 0

/-- `ev3_tacho_motor_reset` for an EV3 large motor (platform-data type
`TACHO_MOTOR_EV3_LARGE`, so `motor_type` becomes `MOTOR_TYPE_TACHO` = 7).
Note the source leaves `ramp.up.full`/`ramp.down.full` untouched. -/
def ev3_tacho_motor_reset (s : MotorState) : MotorState :=
  { s with
    tacho_samples := fun _ => 0
    tacho_samples_head := 0
    got_new_sample := false
    samples_per_speed := SamplesPerSpeed 7 0
    dir_chg_samples := 0
    counts_per_pulse := CountsPerPulse 7
    pulses_per_second := 0
    ramp.up_start := 0
    ramp.up_end := 0
    ramp.down_start := 0
    ramp.down_end := 0
    ramp.percent := 0
    ramp.direction := 0
    ramp.position_sp := 0
    ramp.count := 0
    pid.P := 0
    pid.I := 0
    pid.D := 0
    motor_type := 7
    pid.speed_regulation_P := 1000
    pid.speed_regulation_I := 60
    pid.speed_regulation_D := 0
    pid.speed_regulation_K := 9000
    pid.prev_pulses_per_second := 0
    pid.prev_position_error := 0
    speed_reg_sp := 0
    run_direction := Direction.UNKNOWN
    run := 0
    estop := 0
    tacho := 0
    irq_tacho := 0
    speed := 0
    power := 0
    state := TMState.IDLE
    duty_cycle_sp := 0
    pulses_per_second_sp := 0
    time_sp := 0
    position_sp := 0
    ramp_up_sp := 0
    ramp_down_sp := 0
    run_mode := RunMode.FOREVER
    regulation_mode := Regulation.OFF
    stop_mode := StopMode.COAST
    position_mode := PositionMode.ABSOLUTE
    polarity_mode := Polarity.NORMAL
    encoder_mode := Polarity.NORMAL }

/-- A freshly reset EV3 large motor. -/
def resetState : MotorState :=
  ev3_tacho_motor_reset zeroState

/-- The C2 scenario start: from reset, set `duty_cycle_sp = 50` and
`ramp_up_sp = 500` through the class setters and request a run while the
run mode is `TM_RUN_FOREVER` and regulation is off. -/
def rampScenarioStart : MotorState :=
  ev3_tacho_motor_set_run
    (ev3_tacho_motor_set_ramp_up_sp
      (ev3_tacho_motor_set_duty_cycle_sp resetState 50) 500) 1

/-- The C2 scenario after `n` timer ticks (no encoder edges arrive, and
the hires timer is sampled as 0, so the speed estimator is quiescent). -/
def rampScenarioAt (n : Nat) : MotorState :=
  Nat.iterate (ev3_tacho_motor_timer_callback 0) n rampScenarioStart

/-- The C5 scenario start: a freshly reset large motor whose speed
setpoint has been driven far beyond the model's 900 pulses-per-second
maximum, with the motor stalled (no encoder pulses, measured speed 0). -/
def speedRegScenarioStart : MotorState :=
  { resetState with speed_reg_sp := 100000 }

/-- The C5 scenario after `n` invocations of the speed regulator (the
motor stays stalled, so `pulses_per_second` remains 0 between calls). -/
def speedRegScenarioAt (n : Nat) : MotorState :=
  Nat.iterate regulate_speed n speedRegScenarioStart

/-- The shape the C5 scenario settles into after the first regulator
call: setpoint clamped to 900, P = 900, anti-windup holding I at 0,
stored power clamped to 100; only the ghost driver-call counter keeps
growing (the regulator re-issues the clamped command every tick). -/
def speedRegPhase (oc : Nat) : MotorState :=
  { resetState with
      speed_reg_sp := 900
      pid.P := 900
      pid.I := 0
      pid.D := 0
      pid.prev_pulses_per_second := 0
      power := 100
      out_calls := oc }

/-- The shape every state of the C2 scenario takes from the first tick
on: only the FSM state, the elapsed count, the progress percentage, the
power, the down-window markers and the ghost driver-call counter vary;
everything else keeps the value the setup chain computed on tick 1
(`up = [0, 250]`, `up_full = 250`, `down_full = 0`, direction `+1`). -/
def rampPhase (st : TMState) (c pct pw ds de : Int) (oc : Nat) : MotorState :=
  { resetState with
      duty_cycle_sp := 50
      ramp_up_sp := 500
      run := 1
      state := st
      power := pw
      out_calls := oc
      ramp := { up_start := 0, up_end := 250, up_full := 250, down_start := ds,
                down_end := de, down_full := 0, percent := pct, direction := 1,
                position_sp := 0, count := c } }

/-- The six states reachable once `TM_STATE_SETUP_RAMP_REGULATION` has
run (i.e. everything at or after RAMP_UP in the processing chain).  No
reprocess transition leads from these back to a setup state, and none of
their handlers writes `ramp.count`. -/
def postSetup (st : TMState) : Bool :=
  match st with
  | TMState.RAMP_UP => true
  | TMState.RAMP_CONST => true
  | TMState.POSITION_RAMP_DOWN => true
  | TMState.RAMP_DOWN => true
  | TMState.STOP => true
  | TMState.IDLE => true
  | _ => false

/-- A rank on FSM states that strictly increases along every immediate
(reprocess) transition of `stateStep`; it bounds the length of the
`while (reprocess)` loop. -/
def rank (st : TMState) : Nat :=
  match st with
  | TMState.RUN_FOREVER => 0
  | TMState.SETUP_RAMP_TIME => 1
  | TMState.SETUP_RAMP_POSITION => 1
  | TMState.SETUP_RAMP_REGULATION => 2
  | TMState.RAMP_UP => 3
  | TMState.RAMP_CONST => 4
  | TMState.POSITION_RAMP_DOWN => 5
  | TMState.RAMP_DOWN => 6
  | TMState.STOP => 7
  | TMState.IDLE => 8

/-- The ±1 position increment the ISR applies for a resolved direction
(FORWARD counts up, anything else counts down). -/
def dirDelta (d : Direction) : Int :=
  if d = Direction.FORWARD then 1 else -1

/-- Modelled from the spec (§4.1): the 2×2 polarity/encoder truth table —
`normal/normal → normal`, `normal/inverted → inverted`,
`inverted/normal → inverted`, `inverted/inverted → normal` — applied to a
base decoded direction.  Used only as the specification side of the C6
refinement. -/
def specCombine (polarity encoder : Polarity) (base : Direction) : Direction :=
  if polarity = encoder then base
  else
    match base with
    | Direction.FORWARD => Direction.REVERSE
    | Direction.REVERSE => Direction.FORWARD
    | d => d

/-- C4 counterexample, edge 0: an accepted FORWARD edge at timer 20000 on
a freshly reset motor (interval 20000 ≥ the 13200-tick minimum). -/
def bounceTrace0 : MotorState :=
  tacho_motor_isr true false 20000 resetState

/-- C4 counterexample, edge 1: a REVERSE-decoding edge only 10 timer
ticks later — rejected as bounce. -/
def bounceTrace1 : MotorState :=
  tacho_motor_isr true true 20010 bounceTrace0

/-- C4 counterexample, edge 2: another REVERSE-decoding edge 10 ticks
after edge 1 — also rejected as bounce. -/
def bounceTrace2 : MotorState :=
  tacho_motor_isr true true 20020 bounceTrace1

set_option maxRecDepth 100000

@[simp]
theorem update_output_ramp (s : MotorState) :
    (ev3_tacho_motor_update_output s).ramp = s.ramp := by
  simp only [ev3_tacho_motor_update_output]
  split_ifs <;> simp [apply_ite MotorState.ramp]

@[simp]
theorem update_output_run (s : MotorState) :
    (ev3_tacho_motor_update_output s).run = s.run := by
  simp only [ev3_tacho_motor_update_output]
  split_ifs <;> simp [apply_ite MotorState.run]

@[simp]
theorem update_output_state (s : MotorState) :
    (ev3_tacho_motor_update_output s).state = s.state := by
  simp only [ev3_tacho_motor_update_output]
  split_ifs <;> simp [apply_ite MotorState.state]

@[simp]
theorem set_power_ramp (s : MotorState) (p : Int) :
    (ev3_tacho_motor_set_power s p).ramp = s.ramp := by
  simp only [ev3_tacho_motor_set_power]
  split_ifs <;> simp

@[simp]
theorem set_power_run (s : MotorState) (p : Int) :
    (ev3_tacho_motor_set_power s p).run = s.run := by
  simp only [ev3_tacho_motor_set_power]
  split_ifs <;> simp

@[simp]
theorem set_power_state (s : MotorState) (p : Int) :
    (ev3_tacho_motor_set_power s p).state = s.state := by
  simp only [ev3_tacho_motor_set_power]
  split_ifs <;> simp

@[simp]
theorem umsp_ramp (s : MotorState) (percent : Int) :
    (update_motor_speed_or_power s percent).ramp = s.ramp := by
  simp only [update_motor_speed_or_power]
  split_ifs <;> simp

@[simp]
theorem umsp_run (s : MotorState) (percent : Int) :
    (update_motor_speed_or_power s percent).run = s.run := by
  simp only [update_motor_speed_or_power]
  split_ifs <;> simp

@[simp]
theorem umsp_state (s : MotorState) (percent : Int) :
    (update_motor_speed_or_power s percent).state = s.state := by
  simp only [update_motor_speed_or_power]
  split_ifs <;> simp

@[simp]
theorem regulate_speed_ramp (s : MotorState) :
    (regulate_speed s).ramp = s.ramp := by
  simp only [regulate_speed]
  split_ifs <;> simp

@[simp]
theorem regulate_speed_run (s : MotorState) :
    (regulate_speed s).run = s.run := by
  simp only [regulate_speed]
  split_ifs <;> simp

@[simp]
theorem regulate_speed_state (s : MotorState) :
    (regulate_speed s).state = s.state := by
  simp only [regulate_speed]
  split_ifs <;> simp

@[simp]
theorem regulate_position_ramp (s : MotorState) :
    (regulate_position s).ramp = s.ramp := by
  simp only [regulate_position]
  split_ifs <;> simp

@[simp]
theorem regulate_position_run (s : MotorState) :
    (regulate_position s).run = s.run := by
  simp only [regulate_position]
  split_ifs <;> simp

@[simp]
theorem regulate_position_state (s : MotorState) :
    (regulate_position s).state = s.state := by
  simp only [regulate_position]
  split_ifs <;> simp

@[simp]
theorem adjust_ramp_count (s : MotorState) :
    (adjust_ramp_for_position s).ramp.count = s.ramp.count := by
  simp only [adjust_ramp_for_position]
  split_ifs <;> simp

@[simp]
theorem adjust_ramp_run (s : MotorState) :
    (adjust_ramp_for_position s).run = s.run := by
  simp only [adjust_ramp_for_position]
  split_ifs <;> simp

@[simp]
theorem adjust_ramp_state (s : MotorState) :
    (adjust_ramp_for_position s).state = s.state := by
  simp only [adjust_ramp_for_position]
  split_ifs <;> simp

@[simp]
theorem prda_count (s : MotorState) :
    (positionRampDownAdjust s).ramp.count = s.ramp.count := by
  simp only [positionRampDownAdjust]
  split_ifs <;> simp

@[simp]
theorem prda_run (s : MotorState) :
    (positionRampDownAdjust s).run = s.run := by
  simp only [positionRampDownAdjust]
  split_ifs <;> simp

@[simp]
theorem prda_state (s : MotorState) :
    (positionRampDownAdjust s).state = s.state := by
  simp only [positionRampDownAdjust]
  split_ifs <;> simp

@[simp]
theorem calculate_speed_ramp (now : Nat) (s : MotorState) :
    (calculate_speed now s).ramp = s.ramp := by
  simp only [calculate_speed, set_samples_per_speed]
  split_ifs <;> simp

@[simp]
theorem calculate_speed_run (now : Nat) (s : MotorState) :
    (calculate_speed now s).run = s.run := by
  simp only [calculate_speed, set_samples_per_speed]
  split_ifs <;> simp

@[simp]
theorem calculate_speed_state (now : Nat) (s : MotorState) :
    (calculate_speed now s).state = s.state := by
  simp only [calculate_speed, set_samples_per_speed]
  split_ifs <;> simp

@[simp]
theorem tickTrailing_ramp (s : MotorState) :
    (tickTrailing s).ramp = s.ramp := by
  simp only [tickTrailing]
  split_ifs
  · rfl
  · cases s.stop_mode <;> simp

@[simp]
theorem tickTrailing_run (s : MotorState) :
    (tickTrailing s).run = s.run := by
  simp only [tickTrailing]
  split_ifs
  · rfl
  · cases s.stop_mode <;> simp

@[simp]
theorem tickTrailing_state (s : MotorState) :
    (tickTrailing s).state = s.state := by
  simp only [tickTrailing]
  split_ifs
  · rfl
  · cases s.stop_mode <;> simp

@[simp]
theorem postRegulate_ramp (s : MotorState) :
    (postRegulate s).ramp = s.ramp := by
  simp only [postRegulate]
  split_ifs <;> simp

@[simp]
theorem postRegulate_run (s : MotorState) :
    (postRegulate s).run = s.run := by
  simp only [postRegulate]
  split_ifs <;> simp

@[simp]
theorem postRegulate_state (s : MotorState) :
    (postRegulate s).state = s.state := by
  simp only [postRegulate]
  split_ifs <;> simp

@[simp]
theorem advanceRampCount_run (s : MotorState) :
    (advanceRampCount s).run = s.run := by
  simp only [advanceRampCount]
  split_ifs <;> simp

@[simp]
theorem advanceRampCount_state (s : MotorState) :
    (advanceRampCount s).state = s.state := by
  simp only [advanceRampCount]
  split_ifs <;> simp

theorem setupRampTimeBody_spec (s : MotorState) :
    (setupRampTimeBody s).1.run = s.run ∧
    (setupRampTimeBody s).1.ramp.count = s.ramp.count ∧
    (setupRampTimeBody s).1.state = TMState.SETUP_RAMP_REGULATION ∧
    (setupRampTimeBody s).2 = true := by
  simp only [setupRampTimeBody]
  split_ifs <;> simp

theorem setupRampPositionBody_spec (s : MotorState) :
    (setupRampPositionBody s).1.run = s.run ∧
    (setupRampPositionBody s).1.ramp.count = s.ramp.count ∧
    (setupRampPositionBody s).1.state = TMState.SETUP_RAMP_REGULATION ∧
    (setupRampPositionBody s).2 = true := by
  simp only [setupRampPositionBody]
  split_ifs <;> simp

theorem rampUpBody_spec (s : MotorState) :
    (rampUpBody s).1.run = s.run ∧
    (rampUpBody s).1.ramp.count = s.ramp.count ∧
    ((rampUpBody s).2 = true → (rampUpBody s).1.state = TMState.RAMP_CONST) ∧
    ((rampUpBody s).2 = false → (rampUpBody s).1.state = s.state) := by
  simp only [rampUpBody]
  split_ifs <;> simp

theorem rampConstBody_spec (s : MotorState) :
    (rampConstBody s).1.run = s.run ∧
    (rampConstBody s).1.ramp.count = s.ramp.count ∧
    ((rampConstBody s).2 = true →
      (rampConstBody s).1.state = TMState.RAMP_DOWN ∨
      (rampConstBody s).1.state = TMState.POSITION_RAMP_DOWN) ∧
    ((rampConstBody s).2 = false → (rampConstBody s).1.state = s.state) := by
  simp only [rampConstBody]
  split_ifs <;> simp

theorem rampDownBody_spec (s : MotorState) :
    (rampDownBody s).1.run = s.run ∧
    (rampDownBody s).1.ramp.count = s.ramp.count ∧
    ((rampDownBody s).2 = true → (rampDownBody s).1.state = TMState.STOP) ∧
    ((rampDownBody s).2 = false → (rampDownBody s).1.state = s.state) := by
  simp only [rampDownBody]
  split_ifs <;> simp

theorem stopBody_spec (s : MotorState) :
    (stopBody s).1.run = s.run ∧
    (stopBody s).1.ramp.count = s.ramp.count ∧
    (stopBody s).1.state = TMState.IDLE ∧
    (stopBody s).2 = true := by
  simp only [stopBody]
  split_ifs <;> simp

/-- `rank` never exceeds 8. -/
theorem rank_le (st : TMState) : rank st ≤ 8 := by
  cases st <;> simp [rank]

/-- The reprocess loop exits at `IDLE` after clearing the run flag. -/
theorem stateStep_idle (s : MotorState) (h : s.state = TMState.IDLE) :
    stateStep s = ({ s with run := 0 }, false) := by
  simp [stateStep, h]

theorem stateStep_eq_run_forever (s : MotorState) (h : s.state = TMState.RUN_FOREVER) :
    stateStep s = setupRampTimeBody s := by
  simp [stateStep, h]

theorem stateStep_eq_setup_time (s : MotorState) (h : s.state = TMState.SETUP_RAMP_TIME) :
    stateStep s = setupRampTimeBody s := by
  simp [stateStep, h]

theorem stateStep_eq_setup_position (s : MotorState)
    (h : s.state = TMState.SETUP_RAMP_POSITION) :
    stateStep s = setupRampPositionBody s := by
  simp [stateStep, h]

theorem stateStep_eq_setup_regulation (s : MotorState)
    (h : s.state = TMState.SETUP_RAMP_REGULATION) :
    stateStep s = ({ s with ramp.count := 0, state := TMState.RAMP_UP }, true) := by
  simp [stateStep, h]

theorem stateStep_eq_ramp_up (s : MotorState) (h : s.state = TMState.RAMP_UP) :
    stateStep s = rampUpBody s := by
  simp [stateStep, h]

theorem stateStep_eq_ramp_const (s : MotorState) (h : s.state = TMState.RAMP_CONST) :
    stateStep s = rampConstBody s := by
  simp [stateStep, h]

theorem stateStep_eq_position_ramp_down (s : MotorState)
    (h : s.state = TMState.POSITION_RAMP_DOWN) :
    stateStep s = rampDownBody (positionRampDownAdjust s) := by
  simp [stateStep, h]

theorem stateStep_eq_ramp_down (s : MotorState) (h : s.state = TMState.RAMP_DOWN) :
    stateStep s = rampDownBody s := by
  simp [stateStep, h]

theorem stateStep_eq_stop (s : MotorState) (h : s.state = TMState.STOP) :
    stateStep s = stopBody s := by
  simp [stateStep, h]

/-- Every reprocess request strictly increases the state rank: the
`while (reprocess)` loop can run at most 9 passes. -/
theorem stateStep_rank (s : MotorState) (h : (stateStep s).2 = true) :
    rank s.state < rank (stateStep s).1.state := by
  cases hst : s.state
  case RUN_FOREVER =>
    rw [stateStep_eq_run_forever s hst, (setupRampTimeBody_spec s).2.2.1]
    decide
  case SETUP_RAMP_TIME =>
    rw [stateStep_eq_setup_time s hst, (setupRampTimeBody_spec s).2.2.1]
    decide
  case SETUP_RAMP_POSITION =>
    rw [stateStep_eq_setup_position s hst, (setupRampPositionBody_spec s).2.2.1]
    decide
  case SETUP_RAMP_REGULATION =>
    rw [stateStep_eq_setup_regulation s hst]
    show rank TMState.SETUP_RAMP_REGULATION < rank TMState.RAMP_UP
    decide
  case RAMP_UP =>
    rw [stateStep_eq_ramp_up s hst] at h
    rw [stateStep_eq_ramp_up s hst, (rampUpBody_spec s).2.2.1 h]
    decide
  case RAMP_CONST =>
    rw [stateStep_eq_ramp_const s hst] at h
    rcases (rampConstBody_spec s).2.2.1 h with h1 | h1 <;>
      rw [stateStep_eq_ramp_const s hst, h1] <;> decide
  case POSITION_RAMP_DOWN =>
    rw [stateStep_eq_position_ramp_down s hst] at h
    rw [stateStep_eq_position_ramp_down s hst,
      (rampDownBody_spec (positionRampDownAdjust s)).2.2.1 h]
    decide
  case RAMP_DOWN =>
    rw [stateStep_eq_ramp_down s hst] at h
    rw [stateStep_eq_ramp_down s hst, (rampDownBody_spec s).2.2.1 h]
    decide
  case STOP =>
    rw [stateStep_eq_stop s hst, (stopBody_spec s).2.2.1]
    decide
  case IDLE =>
    rw [stateStep_idle s hst] at h
    simp at h

/-- A reprocess-requesting pass never touches the run flag. -/
theorem stateStep_run_true (s : MotorState) (h : (stateStep s).2 = true) :
    (stateStep s).1.run = s.run := by
  cases hst : s.state
  case RUN_FOREVER =>
    rw [stateStep_eq_run_forever s hst]
    exact (setupRampTimeBody_spec s).1
  case SETUP_RAMP_TIME =>
    rw [stateStep_eq_setup_time s hst]
    exact (setupRampTimeBody_spec s).1
  case SETUP_RAMP_POSITION =>
    rw [stateStep_eq_setup_position s hst]
    exact (setupRampPositionBody_spec s).1
  case SETUP_RAMP_REGULATION =>
    rw [stateStep_eq_setup_regulation s hst]
  case RAMP_UP =>
    rw [stateStep_eq_ramp_up s hst]
    exact (rampUpBody_spec s).1
  case RAMP_CONST =>
    rw [stateStep_eq_ramp_const s hst]
    exact (rampConstBody_spec s).1
  case POSITION_RAMP_DOWN =>
    rw [stateStep_eq_position_ramp_down s hst,
      (rampDownBody_spec (positionRampDownAdjust s)).1, prda_run]
  case RAMP_DOWN =>
    rw [stateStep_eq_ramp_down s hst]
    exact (rampDownBody_spec s).1
  case STOP =>
    rw [stateStep_eq_stop s hst]
    exact (stopBody_spec s).1
  case IDLE =>
    rw [stateStep_idle s hst] at h
    simp at h

/-- When a pass does not request reprocessing, the run flag of its result
is 0 exactly when its state is IDLE (given the machine was running). -/
theorem stateStep_run_false (s : MotorState) (h : (stateStep s).2 = false)
    (hrun : s.run ≠ 0) :
    ((stateStep s).1.run = 0 ↔ (stateStep s).1.state = TMState.IDLE) := by
  cases hst : s.state
  case RUN_FOREVER =>
    rw [stateStep_eq_run_forever s hst, (setupRampTimeBody_spec s).2.2.2] at h
    simp at h
  case SETUP_RAMP_TIME =>
    rw [stateStep_eq_setup_time s hst, (setupRampTimeBody_spec s).2.2.2] at h
    simp at h
  case SETUP_RAMP_POSITION =>
    rw [stateStep_eq_setup_position s hst, (setupRampPositionBody_spec s).2.2.2] at h
    simp at h
  case SETUP_RAMP_REGULATION =>
    rw [stateStep_eq_setup_regulation s hst] at h
    simp at h
  case RAMP_UP =>
    rw [stateStep_eq_ramp_up s hst] at h ⊢
    rw [(rampUpBody_spec s).1, (rampUpBody_spec s).2.2.2 h, hst]
    simp [hrun]
  case RAMP_CONST =>
    rw [stateStep_eq_ramp_const s hst] at h ⊢
    rw [(rampConstBody_spec s).1, (rampConstBody_spec s).2.2.2 h, hst]
    simp [hrun]
  case POSITION_RAMP_DOWN =>
    rw [stateStep_eq_position_ramp_down s hst] at h ⊢
    rw [(rampDownBody_spec (positionRampDownAdjust s)).1, prda_run,
      (rampDownBody_spec (positionRampDownAdjust s)).2.2.2 h, prda_state, hst]
    simp [hrun]
  case RAMP_DOWN =>
    rw [stateStep_eq_ramp_down s hst] at h ⊢
    rw [(rampDownBody_spec s).1, (rampDownBody_spec s).2.2.2 h, hst]
    simp [hrun]
  case STOP =>
    rw [stateStep_eq_stop s hst, (stopBody_spec s).2.2.2] at h
    simp at h
  case IDLE =>
    rw [stateStep_idle s hst]
    simp [hst]

/-- A pass starting in a post-setup state preserves `ramp.count` and
stays in the post-setup set. -/
theorem stateStep_postSetup (s : MotorState) (h : postSetup s.state = true) :
    (stateStep s).1.ramp.count = s.ramp.count ∧
    postSetup (stateStep s).1.state = true := by
  cases hst : s.state
  case RUN_FOREVER => rw [hst] at h; simp [postSetup] at h
  case SETUP_RAMP_TIME => rw [hst] at h; simp [postSetup] at h
  case SETUP_RAMP_POSITION => rw [hst] at h; simp [postSetup] at h
  case SETUP_RAMP_REGULATION => rw [hst] at h; simp [postSetup] at h
  case RAMP_UP =>
    rw [stateStep_eq_ramp_up s hst]
    refine ⟨(rampUpBody_spec s).2.1, ?_⟩
    rcases h2 : (rampUpBody s).2 with _ | _
    · rw [(rampUpBody_spec s).2.2.2 h2, hst]; decide
    · rw [(rampUpBody_spec s).2.2.1 h2]; decide
  case RAMP_CONST =>
    rw [stateStep_eq_ramp_const s hst]
    refine ⟨(rampConstBody_spec s).2.1, ?_⟩
    rcases h2 : (rampConstBody s).2 with _ | _
    · rw [(rampConstBody_spec s).2.2.2 h2, hst]; decide
    · rcases (rampConstBody_spec s).2.2.1 h2 with h1 | h1 <;> rw [h1] <;> decide
  case POSITION_RAMP_DOWN =>
    rw [stateStep_eq_position_ramp_down s hst]
    refine ⟨by rw [(rampDownBody_spec (positionRampDownAdjust s)).2.1, prda_count], ?_⟩
    rcases h2 : (rampDownBody (positionRampDownAdjust s)).2 with _ | _
    · rw [(rampDownBody_spec (positionRampDownAdjust s)).2.2.2 h2, prda_state, hst]; decide
    · rw [(rampDownBody_spec (positionRampDownAdjust s)).2.2.1 h2]; decide
  case RAMP_DOWN =>
    rw [stateStep_eq_ramp_down s hst]
    refine ⟨(rampDownBody_spec s).2.1, ?_⟩
    rcases h2 : (rampDownBody s).2 with _ | _
    · rw [(rampDownBody_spec s).2.2.2 h2, hst]; decide
    · rw [(rampDownBody_spec s).2.2.1 h2]; decide
  case STOP =>
    rw [stateStep_eq_stop s hst]
    refine ⟨(stopBody_spec s).2.1, ?_⟩
    rw [(stopBody_spec s).2.2.1]
    decide
  case IDLE =>
    rw [stateStep_idle s hst]
    exact ⟨rfl, h⟩

/-- One unfolding of the fueled loop. -/
theorem runLoop_succ (fuel : Nat) (s : MotorState) :
    runLoop (fuel + 1) s =
      if (stateStep s).2 then runLoop fuel (stateStep s).1 else (stateStep s).1 := rfl

/-- The loop preserves `ramp.count` (and post-setup membership) when
started in a post-setup state: no reprocess chain from an
actively-ramping state can reach the counter reset in
`SETUP_RAMP_REGULATION`. -/
theorem runLoop_postSetup (fuel : Nat) :
    ∀ s : MotorState, postSetup s.state = true →
      (runLoop fuel s).ramp.count = s.ramp.count ∧
      postSetup (runLoop fuel s).state = true := by
  induction fuel with
  | zero => intro s h; exact ⟨rfl, h⟩
  | succ n ih =>
    intro s h
    rw [runLoop_succ]
    rcases h2 : (stateStep s).2 with _ | _
    · simp only [Bool.false_eq_true, if_false]
      exact stateStep_postSetup s h
    · simp only [if_true]
      obtain ⟨hc, hp⟩ := stateStep_postSetup s h
      obtain ⟨hc2, hp2⟩ := ih (stateStep s).1 hp
      exact ⟨by rw [hc2, hc], hp2⟩

/-- Once running, the loop's result has a cleared run flag exactly when
it ended in IDLE (the fuel hypothesis is satisfied by the callback's
fuel of 9 for every start state). -/
theorem runLoop_run_iff (fuel : Nat) :
    ∀ s : MotorState, 9 ≤ fuel + rank s.state → s.run ≠ 0 →
      ((runLoop fuel s).run = 0 ↔ (runLoop fuel s).state = TMState.IDLE) := by
  induction fuel with
  | zero =>
    intro s hfuel _
    have := rank_le s.state
    omega
  | succ n ih =>
    intro s hfuel hrun
    rw [runLoop_succ]
    rcases h2 : (stateStep s).2 with _ | _
    · simp only [Bool.false_eq_true, if_false]
      exact stateStep_run_false s h2 hrun
    · simp only [if_true]
      have hrank := stateStep_rank s h2
      have hrun2 : (stateStep s).1.run ≠ 0 := by
        rw [stateStep_run_true s h2]; exact hrun
      exact ih (stateStep s).1 (by omega) hrun2

/-- Starting from any of the three ramp-setup entry states (or the
regulation setup itself), the loop leaves `ramp.count` at the 0 installed
by `SETUP_RAMP_REGULATION`. -/
theorem runLoop9_setup_count (s : MotorState)
    (h : s.state = TMState.RUN_FOREVER ∨ s.state = TMState.SETUP_RAMP_TIME ∨
      s.state = TMState.SETUP_RAMP_POSITION ∨ s.state = TMState.SETUP_RAMP_REGULATION) :
    (runLoop 9 s).ramp.count = 0 := by
  have hreg : ∀ (t : MotorState) (m : Nat), t.state = TMState.SETUP_RAMP_REGULATION →
      (runLoop (m + 1) t).ramp.count = 0 := by
    intro t m ht
    rw [runLoop_succ]
    have hstep : stateStep t
        = ({ t with ramp.count := 0, state := TMState.RAMP_UP }, true) := by
      simp [stateStep, ht]
    rw [hstep]
    simp only [if_true]
    have := runLoop_postSetup m { t with ramp.count := 0, state := TMState.RAMP_UP } rfl
    rw [this.1]
  rcases h with h | h | h | h
  · rw [show (9 : Nat) = 8 + 1 from rfl, runLoop_succ]
    have h2 : stateStep s = setupRampTimeBody s := by simp [stateStep, h]
    rw [h2, (setupRampTimeBody_spec s).2.2.2]
    simp only [if_true]
    exact hreg _ 7 (setupRampTimeBody_spec s).2.2.1
  · rw [show (9 : Nat) = 8 + 1 from rfl, runLoop_succ]
    have h2 : stateStep s = setupRampTimeBody s := by simp [stateStep, h]
    rw [h2, (setupRampTimeBody_spec s).2.2.2]
    simp only [if_true]
    exact hreg _ 7 (setupRampTimeBody_spec s).2.2.1
  · rw [show (9 : Nat) = 8 + 1 from rfl, runLoop_succ]
    have h2 : stateStep s = setupRampPositionBody s := by simp [stateStep, h]
    rw [h2, (setupRampPositionBody_spec s).2.2.2]
    simp only [if_true]
    exact hreg _ 7 (setupRampPositionBody_spec s).2.2.1
  · exact hreg s 8 h

/-- When the motor is running, the timer callback reduces to the
trailing section applied after regulation, the loop, and the counter
advance. -/
theorem tick_eq_of_run (now : Nat) (s : MotorState) (h : (calculate_speed now s).run ≠ 0) :
    ev3_tacho_motor_timer_callback now s
      = tickTrailing (postRegulate (runLoop 9 (advanceRampCount (calculate_speed now s)))) := by
  simp only [ev3_tacho_motor_timer_callback]
  rw [if_neg h]

/-- C7: the ramp elapsed-time counter is advanced by the 2 ms tick period
exactly once per timer tick, and only when the state at the start of the
tick is one of the four actively-ramping states; a tick starting in any
other state leaves the counter unchanged or resets it to 0 (in the
setup chain), and a tick with the run flag clear never touches it — so no
reprocess chain can advance it twice. -/
theorem claim_C7 (now : Nat) (s : MotorState) :
    (s.run ≠ 0 → isRampingState s.state = true →
      (ev3_tacho_motor_timer_callback now s).ramp.count = s.ramp.count + 2) ∧
    (s.run ≠ 0 → isRampingState s.state = false →
      ((ev3_tacho_motor_timer_callback now s).ramp.count = s.ramp.count ∨
        (ev3_tacho_motor_timer_callback now s).ramp.count = 0)) ∧
    (s.run = 0 → (ev3_tacho_motor_timer_callback now s).ramp.count = s.ramp.count) := by
  refine ⟨?_, ?_, ?_⟩
  · intro hrun hramp
    have hr : (calculate_speed now s).run ≠ 0 := by simpa using hrun
    rw [tick_eq_of_run now s hr]
    have hadv : advanceRampCount (calculate_speed now s)
        = { calculate_speed now s with
              ramp.count := (calculate_speed now s).ramp.count + 2 } := by
      unfold advanceRampCount
      rw [if_pos]
      simpa using hramp
    have hps : postSetup (advanceRampCount (calculate_speed now s)).state = true := by
      rw [hadv]
      show postSetup (calculate_speed now s).state = true
      rw [calculate_speed_state]
      cases hst : s.state <;> simp [isRampingState, hst] at hramp <;> simp [postSetup]
    have hloop := runLoop_postSetup 9 _ hps
    simp only [tickTrailing_ramp, postRegulate_ramp]
    rw [hloop.1, hadv]
    simp
  · intro hrun hramp
    have hr : (calculate_speed now s).run ≠ 0 := by simpa using hrun
    rw [tick_eq_of_run now s hr]
    have hadv : advanceRampCount (calculate_speed now s) = calculate_speed now s := by
      unfold advanceRampCount
      rw [if_neg]
      rw [calculate_speed_state]
      simp [hramp]
    rw [hadv]
    simp only [tickTrailing_ramp, postRegulate_ramp]
    cases hst : s.state
    case RUN_FOREVER =>
      right
      exact runLoop9_setup_count _ (Or.inl (by rw [calculate_speed_state, hst]))
    case SETUP_RAMP_TIME =>
      right
      exact runLoop9_setup_count _ (Or.inr (Or.inl (by rw [calculate_speed_state, hst])))
    case SETUP_RAMP_POSITION =>
      right
      exact runLoop9_setup_count _ (Or.inr (Or.inr (Or.inl (by rw [calculate_speed_state, hst]))))
    case SETUP_RAMP_REGULATION =>
      right
      exact runLoop9_setup_count _ (Or.inr (Or.inr (Or.inr (by rw [calculate_speed_state, hst]))))
    case RAMP_UP => rw [hst] at hramp; simp [isRampingState] at hramp
    case RAMP_CONST => rw [hst] at hramp; simp [isRampingState] at hramp
    case POSITION_RAMP_DOWN => rw [hst] at hramp; simp [isRampingState] at hramp
    case RAMP_DOWN => rw [hst] at hramp; simp [isRampingState] at hramp
    case STOP =>
      left
      have := runLoop_postSetup 9 (calculate_speed now s)
        (by rw [calculate_speed_state, hst]; rfl)
      rw [this.1]
      simp
    case IDLE =>
      left
      have := runLoop_postSetup 9 (calculate_speed now s)
        (by rw [calculate_speed_state, hst]; rfl)
      rw [this.1]
      simp
  · intro hrun
    have hr : (calculate_speed now s).run = 0 := by simpa using hrun
    simp only [ev3_tacho_motor_timer_callback]
    rw [if_pos hr]
    simp

/-- Witness for C7 at concrete inputs: one tick of the C2 scenario's
steady RAMP_CONST state advances the counter from 250 to 252 exactly
once; one tick of the freshly reset (idle, running flag still set after
a run request…) — here, a reset motor with the run flag clear — leaves
the counter unchanged. -/
theorem claim_C7_witness :
    (ev3_tacho_motor_timer_callback 0
        (rampPhase TMState.RAMP_CONST 250 100 50 250 250 186)).ramp.count = 250 + 2 ∧
    (ev3_tacho_motor_timer_callback 0 resetState).ramp.count = resetState.ramp.count :=
  ⟨(claim_C7 0 (rampPhase TMState.RAMP_CONST 250 100 50 250 250 186)).1
      (by decide) (by decide),
    (claim_C7 0 resetState).2.2 (by decide)⟩

/-- C10: the run-flag setter always leaves the flag at 1 — even when 0
is written to request a stop — so a read immediately after a stop request
returns 1; within a timer tick the flag is cleared exactly when the state
machine reaches IDLE. -/
theorem claim_C10 (s : MotorState) (v : Int) (now : Nat) :
    (ev3_tacho_motor_set_run s v).run = 1 ∧
    ev3_tacho_motor_get_run (ev3_tacho_motor_set_run s 0) = 1 ∧
    (s.run = 1 →
      ((ev3_tacho_motor_timer_callback now s).run = 0 ↔
        (ev3_tacho_motor_timer_callback now s).state = TMState.IDLE)) := by
  refine ⟨rfl, rfl, ?_⟩
  intro hrun
  have hr : (calculate_speed now s).run ≠ 0 := by simp [hrun]
  rw [tick_eq_of_run now s hr]
  simp only [tickTrailing_run, tickTrailing_state, postRegulate_run, postRegulate_state]
  apply runLoop_run_iff
  · have := rank_le (advanceRampCount (calculate_speed now s)).state
    omega
  · simp [hrun]

/-- Witness for C10: after requesting a stop on the C2 scenario's steady
state the flag still reads 1, and a tick of that running state (which
stays in RAMP_CONST) does not clear the flag. -/
theorem claim_C10_witness :
    (ev3_tacho_motor_set_run (rampPhase TMState.RAMP_CONST 250 100 50 250 250 186) 0).run = 1 ∧
    ¬ (ev3_tacho_motor_timer_callback 0
        (rampPhase TMState.RAMP_CONST 250 100 50 250 250 186)).run = 0 := by
  refine ⟨(claim_C10 (rampPhase TMState.RAMP_CONST 250 100 50 250 250 186) 0 0).1, ?_⟩
  have h := (claim_C10 (rampPhase TMState.RAMP_CONST 250 100 50 250 250 186) 0 0).2.2 (by decide)
  intro hc
  have := h.mp hc
  revert this
  decide

/-- Splitting a scenario run into two segments of ticks. -/
theorem rampScenario_split (a b : Nat) :
    rampScenarioAt (a + b) = (ev3_tacho_motor_timer_callback 0)^[a] (rampScenarioAt b) := by
  unfold rampScenarioAt
  exact Function.iterate_add_apply _ a b _

/-- Checkpoint: after 31 ticks the C2 scenario is 60 ms into the RAMP_UP
phase at 24 % progress. -/
theorem rampCheckpoint31 :
    rampScenarioAt 31 = rampPhase TMState.RAMP_UP 60 24 12 3600000 3600000 72 := by
  rfl

/-- Checkpoint: 62 ticks, 122 ms, 48 % progress. -/
theorem rampCheckpoint62 :
    rampScenarioAt 62 = rampPhase TMState.RAMP_UP 122 48 24 3600000 3600000 108 := by
  rw [show (62 : Nat) = 31 + 31 from rfl, rampScenario_split, rampCheckpoint31]
  rfl

/-- Checkpoint: 93 ticks, 184 ms, 73 % progress. -/
theorem rampCheckpoint93 :
    rampScenarioAt 93 = rampPhase TMState.RAMP_UP 184 73 36 3600000 3600000 144 := by
  rw [show (93 : Nat) = 31 + 62 from rfl, rampScenario_split, rampCheckpoint62]
  rfl

/-- Checkpoint: 124 ticks, 246 ms, 98 % progress. -/
theorem rampCheckpoint124 :
    rampScenarioAt 124 = rampPhase TMState.RAMP_UP 246 98 49 3600000 3600000 183 := by
  rw [show (124 : Nat) = 31 + 93 from rfl, rampScenario_split, rampCheckpoint93]
  rfl

/-- At tick 125 (248 ms of ramp time) the progress is already 100 % and
the commanded power is the full setpoint 50: the up-window is
(50 × 500)/100 = 250 ms and `calculate_ramp_progress 248 250 = 100` by
the `+2` special case. -/
theorem rampCheckpoint125 :
    rampScenarioAt 125 = rampPhase TMState.RAMP_UP 248 100 50 3600000 3600000 186 := by
  rw [show (125 : Nat) = 1 + 124 from rfl, rampScenario_split, rampCheckpoint124]
  rfl

/-- At tick 126 the machine has moved to RAMP_CONST with the down-window
pinned to the current count. -/
theorem rampCheckpoint126 :
    rampScenarioAt 126 = rampPhase TMState.RAMP_CONST 250 100 50 250 250 186 := by
  rw [show (126 : Nat) = 2 + 124 from rfl, rampScenario_split, rampCheckpoint124]
  rfl

/-- With no encoder edges (all ring samples 0, timer read 0) the speed
estimator leaves a scenario-phase state untouched. -/
theorem calculate_speed_phase (st : TMState) (c pct pw ds de : Int) (oc : Nat) :
    calculate_speed 0 (rampPhase st c pct pw ds de oc) = rampPhase st c pct pw ds de oc := by
  simp [calculate_speed, rampPhase, resetState, ev3_tacho_motor_reset, zeroState, usub32,
    set_samples_per_speed, SamplesPerSpeed, CountsPerPulse]

/-- In RUN_FOREVER steady state (RAMP_CONST at 100 %, power 50) a tick
only advances the elapsed counter and re-pins the down-window. -/
theorem rampConst_step (c : Int) (oc : Nat) :
    ev3_tacho_motor_timer_callback 0 (rampPhase TMState.RAMP_CONST c 100 50 c c oc)
      = rampPhase TMState.RAMP_CONST (c + 2) 100 50 (c + 2) (c + 2) oc := by
  have hrun : (calculate_speed 0 (rampPhase TMState.RAMP_CONST c 100 50 c c oc)).run ≠ 0 := by
    rw [calculate_speed_phase]
    show (1 : Int) ≠ 0
    decide
  rw [tick_eq_of_run 0 _ hrun, calculate_speed_phase]
  have h : tickTrailing (postRegulate (runLoop 9
        (advanceRampCount (rampPhase TMState.RAMP_CONST c 100 50 c c oc))))
      = rampPhase TMState.RAMP_CONST (c + 2) 100 50 (c + 2)
          (c + 2 + (|(50 : Int)| * 0).tdiv 100) oc := rfl
  simpa using h

/-- Iterating the steady state. -/
theorem rampConst_iterate (k : Nat) (oc : Nat) :
    (ev3_tacho_motor_timer_callback 0)^[k] (rampPhase TMState.RAMP_CONST 250 100 50 250 250 oc)
      = rampPhase TMState.RAMP_CONST (250 + 2 * k) 100 50 (250 + 2 * k) (250 + 2 * k) oc := by
  induction k with
  | zero => norm_num
  | succ m ih =>
    rw [Function.iterate_succ_apply', ih, rampConst_step]
    have harith : (250 : Int) + 2 * (m : Int) + 2 = 250 + 2 * ((m : Nat) + 1 : Nat) := by
      push_cast
      ring
    rw [harith]

/-- C2 counterexample: in the scenario (RunForever, regulation off,
duty-cycle-sp 50, ramp-up-sp 500 ms, 2 ms ticks) the ramp percentage at
tick 125 is 100, not approximately 50: the up-window is scaled by the
duty-cycle setpoint to 250 ms, so the ramp is already complete. -/
theorem claim_C2_counterexample :
    (rampScenarioAt 125).ramp.percent = 100 ∧
    ¬ (rampScenarioAt 125).ramp.percent ≤ 75 := by
  rw [rampCheckpoint125]
  exact ⟨rfl, by decide⟩

/-- C2 as amended: because the up-window is `(|duty_cycle_sp| ×
ramp_up_sp)/100 = 250 ms` rather than `ramp_up_sp = 500 ms`, the ramp
percentage is ≈ 50 (exactly 49) at tick 63 (124 ms), and from tick 125
(248 ms) onward — in particular at tick 250 and beyond — the percentage
is 100 and the commanded power is 50. -/
theorem claim_C2_amended :
    (rampScenarioAt 63).ramp.percent = 49 ∧
    ∀ n : Nat, 125 ≤ n →
      (rampScenarioAt n).ramp.percent = 100 ∧ (rampScenarioAt n).power = 50 := by
  constructor
  · rw [show (63 : Nat) = 1 + 62 from rfl, rampScenario_split, rampCheckpoint62]
    rfl
  · intro n hn
    rcases Nat.lt_or_ge n 126 with h126 | h126
    · have h125 : n = 125 := by omega
      subst h125
      rw [rampCheckpoint125]
      exact ⟨rfl, rfl⟩
    · obtain ⟨k, hk⟩ : ∃ k, n = k + 126 := ⟨n - 126, by omega⟩
      subst hk
      rw [rampScenario_split, rampCheckpoint126, rampConst_iterate]
      exact ⟨rfl, rfl⟩

/-- Witness for the amended C2 at tick 250 (500 ms): percentage 100,
power 50. -/
theorem claim_C2_amended_witness :
    (rampScenarioAt 250).ramp.percent = 100 ∧ (rampScenarioAt 250).power = 50 :=
  claim_C2_amended.2 250 (by decide)

/-- C1: `calculate_ramp_progress` returns 100 whenever the window
(denominator) is at most `elapsed + 2` or is 0, and otherwise returns the
truncated integer quotient `elapsed * 100 / window`; in particular the
boundary `window = elapsed + 2` yields 100 and `window = elapsed + 3`
yields the quotient. -/
theorem claim_C1 (elapsed window : Int) :
    (window ≤ elapsed + 2 → calculate_ramp_progress elapsed window = 100) ∧
    (window = 0 → calculate_ramp_progress elapsed window = 100) ∧
    (elapsed + 2 < window → window ≠ 0 →
      calculate_ramp_progress elapsed window = (elapsed * 100).tdiv window) ∧
    calculate_ramp_progress elapsed (elapsed + 2) = 100 ∧
    (elapsed + 3 ≠ 0 →
      calculate_ramp_progress elapsed (elapsed + 3) = (elapsed * 100).tdiv (elapsed + 3)) := by
  unfold calculate_ramp_progress
  refine ⟨fun h => ?_, fun h => ?_, fun h1 h2 => ?_, ?_, fun h => ?_⟩ <;>
    split_ifs <;> first | rfl | omega

/-- Witness for C1 at concrete inputs: window 7 ≤ 5+2 gives 100, window 0
gives 100, and window 8 = 5+3 gives the integer quotient 62. -/
theorem claim_C1_witness :
    calculate_ramp_progress 5 7 = 100 ∧
    calculate_ramp_progress 5 0 = 100 ∧
    calculate_ramp_progress 5 8 = (5 * 100 : Int).tdiv 8 :=
  ⟨(claim_C1 5 7).1 (by decide), (claim_C1 5 0).2.1 rfl,
    ((claim_C1 5 8).2.2.2.2 (by decide))⟩

/-- C3: the emergency-stop write is a two-phase commit.  Writing anything
while disarmed (`estop = 0`) leaves a non-zero token and forces the STOP
state; writing exactly the stored token while armed clears it (and
changes nothing else); writing any other value while armed leaves the
whole motor state unchanged.  `fresh`, the token produced by the
`get_random_bytes` re-roll loop, is non-zero by that loop's guard. -/
theorem claim_C3 (s : MotorState) (v fresh : Int) (hfresh : fresh ≠ 0) :
    (s.estop = 0 →
      (ev3_tacho_motor_set_estop fresh s v).estop ≠ 0 ∧
      (ev3_tacho_motor_set_estop fresh s v).state = TMState.STOP) ∧
    (s.estop ≠ 0 → v = s.estop →
      ev3_tacho_motor_set_estop fresh s v = { s with estop := 0 }) ∧
    (s.estop ≠ 0 → v ≠ s.estop →
      ev3_tacho_motor_set_estop fresh s v = s) := by
  unfold ev3_tacho_motor_set_estop
  refine ⟨fun h => ?_, fun h1 h2 => ?_, fun h1 h2 => ?_⟩ <;>
    split_ifs <;> simp_all

/-- Witness for C3: arming a reset (disarmed) motor with value 5 yields a
non-zero token and the STOP state; writing back the exact token 7 of an
armed motor disarms it; writing 3 instead leaves the armed motor
untouched. -/
theorem claim_C3_witness :
    ((ev3_tacho_motor_set_estop 99 resetState 5).estop ≠ 0 ∧
      (ev3_tacho_motor_set_estop 99 resetState 5).state = TMState.STOP) ∧
    ev3_tacho_motor_set_estop 99 { resetState with estop := 7 } 7
      = { { resetState with estop := 7 } with estop := 0 } ∧
    ev3_tacho_motor_set_estop 99 { resetState with estop := 7 } 3
      = { resetState with estop := 7 } :=
  ⟨(claim_C3 resetState 5 99 (by decide)).1 rfl,
    (claim_C3 { resetState with estop := 7 } 7 99 (by decide)).2.1 (by decide) rfl,
    (claim_C3 { resetState with estop := 7 } 3 99 (by decide)).2.2 (by decide) (by decide)⟩

/-- `ev3_tacho_motor_update_output` always makes at least one
physical-driver call (`set_duty_cycle` at minimum). -/
theorem update_output_calls (s : MotorState) :
    s.out_calls < (ev3_tacho_motor_update_output s).out_calls := by
  simp only [ev3_tacho_motor_update_output]
  split_ifs <;> simp [apply_ite MotorState.out_calls] <;> omega

/-- C8: the set-power operation is a complete no-op (identical state and
no physical-driver call, witnessed by the ghost call counter) when the
request equals the stored power; otherwise it stores the request clamped
into `[-100, 100]` and then calls the output update (which issues at
least one driver call). -/
theorem claim_C8 (s : MotorState) (p : Int) :
    (p = s.power → ev3_tacho_motor_set_power s p = s) ∧
    (p ≠ s.power →
      ev3_tacho_motor_set_power s p
        = ev3_tacho_motor_update_output { s with power := clampPower p } ∧
      -MAX_POWER ≤ clampPower p ∧ clampPower p ≤ MAX_POWER ∧
      s.out_calls < (ev3_tacho_motor_set_power s p).out_calls) := by
  constructor
  · intro h
    simp only [ev3_tacho_motor_set_power]
    rw [if_pos h.symm]
  · intro h
    have hne : ¬ s.power = p := fun hc => h hc.symm
    have heq : ev3_tacho_motor_set_power s p
        = ev3_tacho_motor_update_output { s with power := clampPower p } := by
      simp only [ev3_tacho_motor_set_power]
      rw [if_neg hne]
    refine ⟨heq, ?_, ?_, ?_⟩
    · unfold clampPower MAX_POWER
      split_ifs <;> omega
    · unfold clampPower MAX_POWER
      split_ifs <;> omega
    · rw [heq]
      have h2 := update_output_calls { s with power := clampPower p }
      simpa using h2

/-- Witness for C8: on a reset motor (power 0), requesting power 0 is the
identity, and requesting 5 routes through the output update with the
clamp applied. -/
theorem claim_C8_witness :
    ev3_tacho_motor_set_power resetState 0 = resetState ∧
    ev3_tacho_motor_set_power resetState 5
      = ev3_tacho_motor_update_output { resetState with power := clampPower 5 } :=
  ⟨(claim_C8 resetState 0).1 rfl, ((claim_C8 resetState 5).2 (by decide)).1⟩

@[simp]
theorem update_output_pid (s : MotorState) :
    (ev3_tacho_motor_update_output s).pid = s.pid := by
  simp only [ev3_tacho_motor_update_output]
  split_ifs <;> simp [apply_ite MotorState.pid]

@[simp]
theorem set_power_pid (s : MotorState) (p : Int) :
    (ev3_tacho_motor_set_power s p).pid = s.pid := by
  simp only [ev3_tacho_motor_set_power]
  split_ifs <;> simp

/-- What one `regulate_speed` invocation does to the integral term:
the just-added error is taken back out exactly when the magnitude of the
computed power exceeds 100. -/
theorem regulate_speed_I (s : MotorState) :
    (regulate_speed s).pid.I =
      if 100 < |computedPower s| then s.pid.I else s.pid.I + speedError s := by
  simp only [regulate_speed, computedPower, speedError, clampedSpeedRegSp]
  split_ifs <;> simp

/-- One regulator call on the settled shape changes only the ghost
driver-call counter (the command 106 clamps to the already-stored 100,
but the clamped duty cycle is re-issued to the driver). -/
theorem speedReg_fix (oc : Nat) :
    regulate_speed (speedRegPhase oc) = speedRegPhase (oc + 3) := rfl

/-- The first regulator call reaches the settled shape. -/
theorem speedReg_first : speedRegScenarioAt 1 = speedRegPhase 3 := rfl

/-- Every later scenario state is the settled shape (with some
driver-call count). -/
theorem speedReg_steady (k : Nat) :
    ∃ oc : Nat, speedRegScenarioAt (k + 1) = speedRegPhase oc := by
  induction k with
  | zero => exact ⟨3, speedReg_first⟩
  | succ m ih =>
    obtain ⟨oc, hoc⟩ := ih
    have hstep : speedRegScenarioAt (m + 1 + 1)
        = regulate_speed (speedRegScenarioAt (m + 1)) := by
      unfold speedRegScenarioAt
      exact Function.iterate_succ_apply' _ _ _
    exact ⟨oc + 3, by rw [hstep, hoc, speedReg_fix]⟩

/-- C5: the speed regulator adds the error to the integral term every
tick and subtracts it back out whenever the magnitude of the computed
power `(P·Kp + I·Ki + D·Kd)/Kf` exceeds 100, so such a tick leaves `I`
unchanged; consequently, driving a stalled large motor with a setpoint
of 100000 (far beyond the 900 pulses-per-second model maximum) for any
number of ticks keeps the computed power at a constant 106 — within one
tick's integral transient `(error·Ki)/Kf = 6` of 100 — the stored
(clamped) power at 100, and the integral at 0. -/
theorem claim_C5 :
    (∀ s : MotorState, 100 < |computedPower s| →
      (regulate_speed s).pid.I = s.pid.I) ∧
    (∀ s : MotorState, ¬ 100 < |computedPower s| →
      (regulate_speed s).pid.I = s.pid.I + speedError s) ∧
    (∀ n : Nat, 1 ≤ n →
      computedPower (speedRegScenarioAt n) = 106 ∧
      (speedRegScenarioAt n).power = 100 ∧
      (speedRegScenarioAt n).pid.I = 0 ∧
      (106 : Int) ≤ 100 + (speedError (speedRegScenarioAt n)
        * (speedRegScenarioAt n).pid.speed_regulation_I).tdiv
          (speedRegScenarioAt n).pid.speed_regulation_K) := by
  refine ⟨?_, ?_, ?_⟩
  · intro s h
    rw [regulate_speed_I, if_pos h]
  · intro s h
    rw [regulate_speed_I, if_neg h]
  · intro n hn
    obtain ⟨k, rfl⟩ : ∃ k, n = k + 1 := ⟨n - 1, by omega⟩
    obtain ⟨oc, hoc⟩ := speedReg_steady k
    rw [hoc]
    refine ⟨rfl, rfl, rfl, ?_⟩
    show (106 : Int) ≤ 100 + ((900 : Int) * 60).tdiv 9000
    decide

/-- Witness for C5: the first regulator call on the overdriven stalled
motor computes power 106 (> 100), hence leaves the integral at its entry
value 0; the scenario facts hold e.g. at tick 3. -/
theorem claim_C5_witness :
    (regulate_speed speedRegScenarioStart).pid.I = speedRegScenarioStart.pid.I ∧
    (computedPower (speedRegScenarioAt 3) = 106 ∧
      (speedRegScenarioAt 3).power = 100 ∧
      (speedRegScenarioAt 3).pid.I = 0 ∧
      (106 : Int) ≤ 100 + (speedError (speedRegScenarioAt 3)
        * (speedRegScenarioAt 3).pid.speed_regulation_I).tdiv
          (speedRegScenarioAt 3).pid.speed_regulation_K) :=
  ⟨claim_C5.1 speedRegScenarioStart (by decide), claim_C5.2.2 3 (by decide)⟩

@[simp]
theorem isrFinish_run_direction (s : MotorState) (ns t : Nat) (dir : Direction) :
    (isrFinish s ns t dir).run_direction = dir := by
  simp only [isrFinish]
  split_ifs <;> rfl

@[simp]
theorem isrFinish_speed (s : MotorState) (ns t : Nat) (dir : Direction) :
    (isrFinish s ns t dir).speed = s.speed := by
  simp only [isrFinish]
  split_ifs <;> rfl

@[simp]
theorem isrFinish_head (s : MotorState) (ns t : Nat) (dir : Direction) :
    (isrFinish s ns t dir).tacho_samples_head = ns := by
  simp only [isrFinish]
  split_ifs <;> rfl

@[simp]
theorem isrFinish_polarity (s : MotorState) (ns t : Nat) (dir : Direction) :
    (isrFinish s ns t dir).polarity_mode = s.polarity_mode := by
  simp only [isrFinish]
  split_ifs <;> rfl

@[simp]
theorem isrFinish_encoder (s : MotorState) (ns t : Nat) (dir : Direction) :
    (isrFinish s ns t dir).encoder_mode = s.encoder_mode := by
  simp only [isrFinish]
  split_ifs <;> rfl

@[simp]
theorem isrFinish_samples (s : MotorState) (ns t : Nat) (dir : Direction) :
    (isrFinish s ns t dir).tacho_samples = ringWrite s.tacho_samples ns t := by
  simp only [isrFinish]
  split_ifs <;> rfl

theorem isrFinish_irq (s : MotorState) (ns t : Nat) (dir : Direction) :
    (isrFinish s ns t dir).irq_tacho = s.irq_tacho + dirDelta dir := by
  simp only [isrFinish, dirDelta]
  split_ifs <;> simp_all
  ring

/-- The decoded direction is always FORWARD or REVERSE. -/
theorem decode_cases (p e : Polarity) (i d : Bool) :
    decodeDirection p e i d = Direction.FORWARD ∨
    decodeDirection p e i d = Direction.REVERSE := by
  cases p <;> cases e <;> cases i <;> cases d <;> decide

/-- Reducing the raw timer modulo 2^32 before the wrap-around
subtraction changes nothing. -/
theorem usub32_mod_left (a b : Nat) : usub32 (a % 2 ^ 32) b = usub32 a b := by
  unfold usub32
  omega

/-- Likewise on the stored-sample side. -/
theorem usub32_mod_right (a b : Nat) : usub32 a (b % 2 ^ 32) = usub32 a b := by
  unfold usub32
  omega

/-- An accepted low-speed edge: head advances by one slot, the timestamp
lands there, the direction is re-decoded from the pins, and the live
delta moves by exactly the decoded direction. -/
theorem isr_accepted (s : MotorState) (i d : Bool) (t : Nat)
    (hlo : -35 ≤ s.speed) (hhi : s.speed ≤ 35)
    (hacc : ¬ usub32 t (s.tacho_samples s.tacho_samples_head) < 400 * 33) :
    (tacho_motor_isr i d t s).tacho_samples_head
      = (s.tacho_samples_head + 1) % TACHO_SAMPLES ∧
    (tacho_motor_isr i d t s).tacho_samples ((s.tacho_samples_head + 1) % TACHO_SAMPLES)
      = t % 2 ^ 32 ∧
    (tacho_motor_isr i d t s).run_direction
      = decodeDirection s.polarity_mode s.encoder_mode i (!d) ∧
    (tacho_motor_isr i d t s).irq_tacho
      = s.irq_tacho + dirDelta (decodeDirection s.polarity_mode s.encoder_mode i (!d)) ∧
    (tacho_motor_isr i d t s).speed = s.speed ∧
    (tacho_motor_isr i d t s).polarity_mode = s.polarity_mode ∧
    (tacho_motor_isr i d t s).encoder_mode = s.encoder_mode := by
  have hsp : ¬ (35 < s.speed ∨ s.speed < -35) := by omega
  have hacc2 : ¬ usub32 (t % 2 ^ 32) (s.tacho_samples s.tacho_samples_head) < 400 * 33 := by
    rw [usub32_mod_left]
    exact hacc
  simp only [tacho_motor_isr]
  rw [if_neg hsp, if_neg hacc2]
  split_ifs <;>
    simp [isrFinish_irq, ringWrite]

/-- A bounce-rejected low-speed edge: the head slot is overwritten in
place (head unchanged), and the previous edge's increment is reversed
before the newly decoded direction is applied. -/
theorem isr_bounce (s : MotorState) (i d : Bool) (t : Nat)
    (hlo : -35 ≤ s.speed) (hhi : s.speed ≤ 35)
    (hpair : usub32 t (s.tacho_samples s.tacho_samples_head) < 400 * 33) :
    (tacho_motor_isr i d t s).tacho_samples_head = s.tacho_samples_head ∧
    (tacho_motor_isr i d t s).tacho_samples s.tacho_samples_head = t % 2 ^ 32 ∧
    (tacho_motor_isr i d t s).run_direction
      = decodeDirection s.polarity_mode s.encoder_mode i (!d) ∧
    (tacho_motor_isr i d t s).irq_tacho
      = s.irq_tacho - dirDelta s.run_direction
        + dirDelta (decodeDirection s.polarity_mode s.encoder_mode i (!d)) := by
  have hsp : ¬ (35 < s.speed ∨ s.speed < -35) := by omega
  have hpair2 : usub32 (t % 2 ^ 32) (s.tacho_samples s.tacho_samples_head) < 400 * 33 := by
    rw [usub32_mod_left]
    exact hpair
  simp only [tacho_motor_isr]
  rw [if_neg hsp, if_pos hpair2]
  split_ifs with hdir <;>
    refine ⟨by simp, by simp [ringWrite], by simp, ?_⟩ <;>
    simp [isrFinish_irq, dirDelta, hdir]

/-- C4 counterexample: on a freshly reset motor, an accepted FORWARD edge
at timer 20000 is followed by two REVERSE-decoding edges at 20010 and
20020.  The edges at 20010 and 20020 are a pair of consecutive edges
whose timestamps differ by 10 < 13200 timer ticks (the minimum plausible
pulse interval), yet the two handler invocations together move the live
delta from +1 to −1 — a net change of −2, not at most ±1: when the first
edge of the pair was itself a rejected bounce, its own ±2 adjustment is
not cancelled by the second. -/
theorem claim_C4_counterexample :
    usub32 20020 20010 < 400 * 33 ∧
    bounceTrace2.irq_tacho - bounceTrace0.irq_tacho = -2 := by
  constructor <;> decide

/-- C4 as amended: restricted to the case the noise-rejection design
targets — the decoder in its low-speed regime and the *first* edge of
the pair accepted (its own interval at least the minimum) — a second
edge arriving within the minimum plausible interval overwrites the most
recent ring slot in place (head unchanged, slot holding the new
timestamp) and the pair nets exactly the second edge's decoded
direction: ±1. -/
theorem claim_C4_amended (s : MotorState) (i1 d1 i2 d2 : Bool) (t1 t2 : Nat)
    (hlo : -35 ≤ s.speed) (hhi : s.speed ≤ 35)
    (hacc : ¬ usub32 t1 (s.tacho_samples s.tacho_samples_head) < 400 * 33)
    (hpair : usub32 t2 t1 < 400 * 33) :
    (tacho_motor_isr i2 d2 t2 (tacho_motor_isr i1 d1 t1 s)).tacho_samples_head
      = (tacho_motor_isr i1 d1 t1 s).tacho_samples_head ∧
    (tacho_motor_isr i2 d2 t2 (tacho_motor_isr i1 d1 t1 s)).tacho_samples
        ((tacho_motor_isr i1 d1 t1 s).tacho_samples_head) = t2 % 2 ^ 32 ∧
    ((tacho_motor_isr i2 d2 t2 (tacho_motor_isr i1 d1 t1 s)).irq_tacho - s.irq_tacho = 1 ∨
      (tacho_motor_isr i2 d2 t2 (tacho_motor_isr i1 d1 t1 s)).irq_tacho - s.irq_tacho = -1) := by
  obtain ⟨h1head, h1slot, h1dir, h1irq, h1speed, h1pol, h1enc⟩ :=
    isr_accepted s i1 d1 t1 hlo hhi hacc
  have h2lo : -35 ≤ (tacho_motor_isr i1 d1 t1 s).speed := by rw [h1speed]; exact hlo
  have h2hi : (tacho_motor_isr i1 d1 t1 s).speed ≤ 35 := by rw [h1speed]; exact hhi
  have h2pair : usub32 t2
      ((tacho_motor_isr i1 d1 t1 s).tacho_samples
        (tacho_motor_isr i1 d1 t1 s).tacho_samples_head) < 400 * 33 := by
    rw [h1head, h1slot, usub32_mod_right]
    exact hpair
  obtain ⟨h2head, h2slot, h2dir, h2irq⟩ :=
    isr_bounce (tacho_motor_isr i1 d1 t1 s) i2 d2 t2 h2lo h2hi h2pair
  refine ⟨h2head, h2slot, ?_⟩
  rw [h2irq, h1irq, h1dir, h1pol, h1enc]
  rcases decode_cases s.polarity_mode s.encoder_mode i2 (!d2) with h | h <;> rw [h] <;>
    simp [dirDelta]

/-- Witness for the amended C4: on a reset motor, an accepted edge at
timer 20000 followed 10 ticks later by a bounce leaves the head where it
was, stores the bounce timestamp in the head slot, and nets −1 across
the pair. -/
theorem claim_C4_amended_witness :
    (tacho_motor_isr true true 20010 (tacho_motor_isr true false 20000 resetState)).tacho_samples_head
      = (tacho_motor_isr true false 20000 resetState).tacho_samples_head ∧
    (tacho_motor_isr true true 20010 (tacho_motor_isr true false 20000 resetState)).tacho_samples
        ((tacho_motor_isr true false 20000 resetState).tacho_samples_head) = 20010 % 2 ^ 32 ∧
    ((tacho_motor_isr true true 20010 (tacho_motor_isr true false 20000 resetState)).irq_tacho
        - resetState.irq_tacho = 1 ∨
      (tacho_motor_isr true true 20010 (tacho_motor_isr true false 20000 resetState)).irq_tacho
        - resetState.irq_tacho = -1) :=
  claim_C4_amended resetState true false true true 20000 20010
    (by decide) (by decide) (by decide) (by decide)

/-- C6: for all 16 combinations of interrupt level, direction level,
output polarity and encoder polarity, the decoded direction is the
normal/normal decode transformed by the spec's 2×2 polarity truth table
(equal polarities leave it, unequal polarities invert it); and whenever
the measured speed is at or below the ±35 recomputation threshold, the
ISR installs exactly this decoded direction (the C samples the direction
pin inverted, hence `!d`). -/
theorem claim_C6 :
    (∀ (p e : Polarity) (i d : Bool),
      decodeDirection p e i d
        = specCombine p e (decodeDirection Polarity.NORMAL Polarity.NORMAL i d)) ∧
    (∀ (s : MotorState) (i d : Bool) (t : Nat), -35 ≤ s.speed → s.speed ≤ 35 →
      (tacho_motor_isr i d t s).run_direction
        = decodeDirection s.polarity_mode s.encoder_mode i (!d)) := by
  constructor
  · intro p e i d
    cases p <;> cases e <;> cases i <;> cases d <;> decide
  · intro s i d t hlo hhi
    have hsp : ¬ (35 < s.speed ∨ s.speed < -35) := by omega
    simp only [tacho_motor_isr]
    rw [if_neg hsp]
    split_ifs <;> simp

/-- Witness for C6: the inverted/inverted row at concrete levels, and a
concrete ISR call on a reset motor (speed 0). -/
theorem claim_C6_witness :
    decodeDirection Polarity.INVERSED Polarity.INVERSED true false
      = specCombine Polarity.INVERSED Polarity.INVERSED
          (decodeDirection Polarity.NORMAL Polarity.NORMAL true false) ∧
    (tacho_motor_isr true false 20000 resetState).run_direction
      = decodeDirection resetState.polarity_mode resetState.encoder_mode true (!false) :=
  ⟨claim_C6.1 Polarity.INVERSED Polarity.INVERSED true false,
    claim_C6.2 resetState true false 20000 (by decide) (by decide)⟩

/-- C9: setting the position to `p` stores `p` in the resting accumulator
`tacho` and zeroes the live delta `irq_tacho`, the getter always returns
`tacho + irq_tacho`, and therefore a get immediately after a set returns
exactly `p`. -/
theorem claim_C9 (s : MotorState) (p : Int) :
    ev3_tacho_motor_get_position (ev3_tacho_motor_set_position s p) = p ∧
    (ev3_tacho_motor_set_position s p).tacho = p ∧
    (ev3_tacho_motor_set_position s p).irq_tacho = 0 ∧
    ev3_tacho_motor_get_position s = s.tacho + s.irq_tacho := by
  refine ⟨?_, rfl, rfl, rfl⟩
  show p + 0 = p
  omega

end EV3
